import Mathlib

/-!
# Conveyor worker, state-machine matrix, storage, RPC controller, API, genesis

Verification development for the insolar sources.

The first part is about `conveyor/worker_test.go`.  The worker, slot and queue
implementations (`conveyor/worker.go`, `conveyor/slot.go`, `conveyor/queue`)
and the `constant` package are not part of the available sources; only their
test file is.  Their definitions below are therefore modelled from the
specification, kept consistent with every assertion of
`conveyor/worker_test.go`.

The other parts embed functions of `conveyor/generator/matrix/matrix.go`,
`conveyor/generator/state_machines/sample/sample_state_machine.go`,
`ledger/storage/transaction.go`, `network/controller/rpc_controller.go`,
`api/main.go` and `bootstrap/genesis/genesis.go`; what these call in packages
and libraries outside the available sources is taken as a parameter.
-/

namespace Conveyor

/-! ## Data model -/

/-- Modelled from the spec: the `constant.PulseState` type (package
`conveyor/interfaces/constant` is missing).  It is a Go integer type with a
generated `String` method; the test assigns `99999` to it, so it is kept as
an integer rather than a three-valued enumeration. -/
abbrev PulseState := Int

/-- Modelled from the spec: phase `Future`; phases are numbered in the order
the matrix indexes them (`GetFutureConfig` reads `matrix[0]`). -/
def Future : PulseState := 0

/-- Modelled from the spec: phase `Present` (`GetPresentConfig` reads
`matrix[1]`). -/
def Present : PulseState := 1

/-- Modelled from the spec: phase `Past` (`GetPastConfig` reads
`matrix[2]`). -/
def Past : PulseState := 2

/-- Modelled from the spec: the generated `PulseState.String` method (missing
`constant` package): the name of a known phase, and `PulseState(<v>)` with
the value in decimal for any other value, as pinned by `Test_changePulseState`. -/
def PulseState.String (p : PulseState) : String :=
  if p = Future then "Future"
  else if p = Present then "Present"
  else if p = Past then "Past"
  else "PulseState(" ++ toString p ++ ")"

/-- Modelled from the spec: the worker states of section 4.D (`SlotState` of
the missing `conveyor/slot.go`). -/
inductive SlotState where
  | Initializing
  | Working
  | Suspending
  | Suspended
  deriving DecidableEq, Repr

/-- Modelled from the spec: an opaque Go `interface{}` value carried by a
queue item: an event payload (the tests push integers and strings) or the
completion callback of a signal. -/
inductive Payload where
  | int (n : Int)
  | str (s : String)
  | callback (id : Nat)
  deriving DecidableEq, Repr

/-- Modelled from the spec: reserved signal code `1 = PendingPulseSignal`. -/
def PendingPulseSignal : Nat := 1

/-- Modelled from the spec: reserved signal code `2 = ActivatePulseSignal`. -/
def ActivatePulseSignal : Nat := 2

/-- Modelled from the spec: `queue.OutputElement` (missing `conveyor/queue`):
one drained queue item, a payload tagged with an item type; item type `0`
marks an event, any other item type is a signal code. -/
structure OutputElement where
  data : Payload
  itemType : Nat
  deriving DecidableEq, Repr

/-- Modelled from the spec: `queue.NewOutputElement(data, itemType)`. -/
def NewOutputElement (data : Payload) (itemType : Nat) : OutputElement :=
  { data := data, itemType := itemType }

/-- Modelled from the spec: `OutputElement.IsSignal`: an item is a signal
when its item type is not the event type `0`. -/
def OutputElement.IsSignal (el : OutputElement) : Bool :=
  el.itemType != 0

/-- Modelled from the spec: `OutputElement.GetItemType`. -/
def OutputElement.GetItemType (el : OutputElement) : Nat :=
  el.itemType

/-- Modelled from the spec: the membership tag of a slot element, one of the
three intrusive lists of section 4.B. -/
inductive ActivationStatus where
  | ActiveElement
  | NotActiveElement
  | ResponseElement
  deriving DecidableEq, Repr

/-- Modelled from the spec: a slot element (section 3, Element): identifier,
machine type, current state and payload. -/
structure SlotElement where
  id : Nat
  machineType : Nat
  state : Nat
  payload : Payload
  deriving DecidableEq, Repr

/-- Modelled from the spec: the queue of section 4.A (missing
`conveyor/queue`): its items in push order. -/
structure Queue where
  items : List OutputElement
  deriving DecidableEq, Repr

/-- Modelled from the spec: `pushSignal(code, onObserved)`: appends a signal
item carrying its completion callback; always succeeds. -/
def Queue.PushSignal (q : Queue) (signalType : Nat) (callback : Payload) : Queue :=
  { items := q.items ++ [NewOutputElement callback signalType] }

/-- Modelled from the spec: `removeAll()`: drains every queued item in push
order; returns the batch and the emptied queue. -/
def Queue.RemoveAll (q : Queue) : List OutputElement × Queue :=
  (q.items, { items := [] })

/-- Modelled from the spec: the `Slot` of the missing `conveyor/slot.go`
(section 3, Slot).  `pulse` and `stateMachine` are the two further fields
that `areSlotStatesEqual` compares; each element list is kept head first. -/
structure Slot where
  pulseState : PulseState
  pulse : Nat
  pulseNumber : Nat
  stateMachine : Nat
  slotState : SlotState
  inputQueue : Queue
  responseQueue : Queue
  activeElements : List SlotElement
  notActiveElements : List SlotElement
  responseElements : List SlotElement
  nextElementID : Nat
  deriving DecidableEq, Repr

/-- Modelled from the spec: `NewSlot(pulseState, pulseNumber)`: a slot that
was just created is `Initializing`, with empty queues and lists. -/
def NewSlot (pulseState : PulseState) (pulseNumber : Nat) : Slot :=
  { pulseState := pulseState
    pulse := pulseNumber
    pulseNumber := pulseNumber
    stateMachine := 0
    slotState := SlotState.Initializing
    inputQueue := { items := [] }
    responseQueue := { items := [] }
    activeElements := []
    notActiveElements := []
    responseElements := []
    nextElementID := 0 }

/-- The four fields that `areSlotStatesEqual` of `worker_test.go` compares:
`pulseState`, `stateMachine`, `pulse` and `slotState`. -/
def areSlotStatesEqual (s1 s2 : Slot) : Prop :=
  s1.pulseState = s2.pulseState ∧ s1.stateMachine = s2.stateMachine ∧
    s1.pulse = s2.pulse ∧ s1.slotState = s2.slotState

instance (s1 s2 : Slot) : Decidable (areSlotStatesEqual s1 s2) := by
  unfold areSlotStatesEqual; infer_instance

/-- Outcome of a call that may halt with a Go panic: the returned value or
the panic value. -/
inductive Result (α : Type) where
  | ret (a : α)
  | panic (msg : String)
  deriving DecidableEq, Repr

/-! ## Pulse-phase rotation -/

/-- Modelled from the spec: `workerStateMachineImpl.changePulseState` (missing
`conveyor/worker.go`): the relabel step of section 4.F (Future becomes
Present, Present becomes Past), a Past slot keeps its phase, and any other
value halts with the panic value pinned by `Test_changePulseState`.  Returns
the slot after the call together with the outcome. -/
def changePulseState (s : Slot) : Slot × Result Unit :=
  if s.pulseState = Future then ({ s with pulseState := Present }, Result.ret ())
  else if s.pulseState = Present then ({ s with pulseState := Past }, Result.ret ())
  else if s.pulseState = Past then (s, Result.ret ())
  else (s, Result.panic ("[ changePulseState ] Unknown state: " ++ PulseState.String s.pulseState))

/-- Successive calls of `changePulseState` on the same worker, as
`Test_changePulseState` makes them: `n` calls, stopping at the first one that
panics. -/
def changePulseStateTimes : Nat → Slot → Slot × Result Unit
  | 0, s => (s, Result.ret ())
  | n + 1, s =>
    match changePulseState s with
    | (s1, Result.ret _) => changePulseStateTimes n s1
    | (s1, Result.panic msg) => (s1, Result.panic msg)

/-! ## Signal processing -/

/-- Modelled from the spec: what the signal pass of `processSignalsWorking`
has seen so far in a drained batch: the number of signals, whether a `PendingPulseSignal` was among them, and the
last `ActivatePulseSignal` item. -/
structure WorkingScan where
  numSignals : Nat
  hasPending : Bool
  activate : Option OutputElement
  deriving DecidableEq, Repr

/-- Modelled from the spec: the signal pass of `processSignalsWorking` over
the batch (section 4.D, signal processing contract): non-signal items are
ignored, every signal is counted, and a code outside the known set halts
with a diagnostic naming the code. -/
def scanSignalsWorking : List OutputElement → WorkingScan → Result WorkingScan
  | [], acc => Result.ret acc
  | el :: rest, acc =>
    if el.IsSignal then
      if el.GetItemType = PendingPulseSignal then
        scanSignalsWorking rest { acc with numSignals := acc.numSignals + 1, hasPending := true }
      else if el.GetItemType = ActivatePulseSignal then
        scanSignalsWorking rest { acc with numSignals := acc.numSignals + 1, activate := some el }
      else
        Result.panic ("[ processSignalsWorking ] Unknown signal: " ++ toString el.GetItemType)
    else
      scanSignalsWorking rest acc

/-- Modelled from the spec: `workerStateMachineImpl.processSignalsWorking`
(missing `conveyor/worker.go`).  Observing a `PendingPulseSignal` moves the
worker from Working to Suspending; when the batch holds both a pending and
an activate signal the activate signal is retained by pushing it back onto
the input queue; the number of signals consumed is returned.  Returns the
slot after the call together with the outcome. -/
def processSignalsWorking (s : Slot) (elements : List OutputElement) : Slot × Result Nat :=
  match scanSignalsWorking elements { numSignals := 0, hasPending := false, activate := none } with
  | Result.panic msg => (s, Result.panic msg)
  | Result.ret acc =>
    if acc.hasPending then
      let s1 := { s with slotState := SlotState.Suspending }
      match acc.activate with
      | some el =>
        ({ s1 with inputQueue := s1.inputQueue.PushSignal el.GetItemType el.data },
          Result.ret acc.numSignals)
      | none => (s1, Result.ret acc.numSignals)
    else
      (s, Result.ret acc.numSignals)

/-- Modelled from the spec: `workerStateMachineImpl.processSignalsSuspending`
(missing `conveyor/worker.go`).  Non-signal items are ignored, every signal
is counted, a `PendingPulseSignal` is a no-op in this mode, an
`ActivatePulseSignal` takes a worker in the `Suspending` state to `Suspended`
(section 4.D, transition Suspending to Suspended (b)) and changes no other
worker state (a slot that was just made is `Initializing` and is still so
afterwards, as `Test_processSignalsSuspending_ActivatePulseSignal` requires),
and a code outside the known set halts with a diagnostic naming the code.
The second argument of the loop is the number of signals counted so far. -/
def processSignalsSuspendingLoop : List OutputElement → Slot → Nat → Slot × Result Nat
  | [], s, numSignals => (s, Result.ret numSignals)
  | el :: rest, s, numSignals =>
    if el.IsSignal then
      if el.GetItemType = PendingPulseSignal then
        processSignalsSuspendingLoop rest s (numSignals + 1)
      else if el.GetItemType = ActivatePulseSignal then
        processSignalsSuspendingLoop rest
          (if s.slotState = SlotState.Suspending then
            { s with slotState := SlotState.Suspended } else s)
          (numSignals + 1)
      else
        (s, Result.panic ("[ processSignalsSuspending ] Unknown signal: " ++
          toString el.GetItemType))
    else
      processSignalsSuspendingLoop rest s numSignals

/-- Modelled from the spec: `workerStateMachineImpl.processSignalsSuspending`
(missing `conveyor/worker.go`): the loop above started with a count of 0. -/
def processSignalsSuspending (s : Slot) (elements : List OutputElement) : Slot × Result Nat :=
  processSignalsSuspendingLoop elements s 0

/-! ## Event admission -/

/-- Modelled from the spec: `Slot.createElement` (missing `conveyor/slot.go`):
a new element with the next free identifier, seeded with the given machine
type and state and the payload of the event, appended to the Active list. -/
def createElement (s : Slot) (machineType : Nat) (state : Nat) (event : OutputElement) :
    Slot × SlotElement :=
  let el : SlotElement :=
    { id := s.nextElementID, machineType := machineType, state := state, payload := event.data }
  ({ s with activeElements := s.activeElements ++ [el], nextElementID := s.nextElementID + 1 }, el)

/-- Modelled from the spec: step 2 of the working step: an admitted event
creates an element seeded at state 1 of the initial machine (machine type 1),
appended to the Active list. -/
def admitEvent (s : Slot) (event : OutputElement) : Slot :=
  (createElement s 1 1 event).1

/-- Modelled from the spec: steps 1 and 2 of the working step for the events
of a drained batch: the non-signal items are admitted in push order.  The
worker call takes no argument and the tests admit every queued event; the
admission cap the spec mentions has no value there, so none is applied. -/
def admitEvents (s : Slot) (elements : List OutputElement) : Slot :=
  (elements.filter (fun el => !el.IsSignal)).foldl admitEvent s

/-- Modelled from the spec: `workerStateMachineImpl.readInputQueueWorking`
(missing `conveyor/worker.go`): drains the input queue, processes the signals
first, then admits the events.  The value returned is the Go error (`none`
is `nil`). -/
def readInputQueueWorking (s : Slot) : Slot × Result (Option String) :=
  let drained := s.inputQueue.RemoveAll
  match processSignalsWorking { s with inputQueue := drained.2 } drained.1 with
  | (s1, Result.panic msg) => (s1, Result.panic msg)
  | (s1, Result.ret _) => (admitEvents s1 drained.1, Result.ret none)

/-- Modelled from the spec: `workerStateMachineImpl.readInputQueueSuspending`
(missing `conveyor/worker.go`): drains the input queue, processes the signals
first, then takes in the events as Active elements, as the tests read them
back; a Past slot that received events goes back to Working (phase-specific
admission policy of section 4.D).  The value returned is the Go error
(`none` is `nil`). -/
def readInputQueueSuspending (s : Slot) : Slot × Result (Option String) :=
  let drained := s.inputQueue.RemoveAll
  match processSignalsSuspending { s with inputQueue := drained.2 } drained.1 with
  | (s1, Result.panic msg) => (s1, Result.panic msg)
  | (s1, Result.ret _) =>
    let s2 := admitEvents s1 drained.1
    if s2.pulseState = Past ∧ (drained.1.filter (fun el => !el.IsSignal)) ≠ [] then
      ({ s2 with slotState := SlotState.Working }, Result.ret none)
    else
      (s2, Result.ret none)

/-! ## Reading back the admitted elements -/

/-- Modelled from the spec: `Slot.popElement(status)` (missing
`conveyor/slot.go`): removes and returns the head of the element list with
the given membership tag; `none` is the nil element of an empty list. -/
def popElement (s : Slot) (status : ActivationStatus) : Slot × Option SlotElement :=
  match status with
  | ActivationStatus.ActiveElement =>
    match s.activeElements with
    | [] => (s, none)
    | el :: rest => ({ s with activeElements := rest }, some el)
  | ActivationStatus.NotActiveElement =>
    match s.notActiveElements with
    | [] => (s, none)
    | el :: rest => ({ s with notActiveElements := rest }, some el)
  | ActivationStatus.ResponseElement =>
    match s.responseElements with
    | [] => (s, none)
    | el :: rest => ({ s with responseElements := rest }, some el)

/-- The payloads returned by `n` successive `popElement(ActiveElement)` calls,
as the loops of `Test_readInputQueueWorking_SignalsAndEvents` read them;
`none` stands for a nil element. -/
def popActivePayloads : Nat → Slot → List (Option Payload)
  | 0, _ => []
  | n + 1, s =>
    ((popElement s ActivationStatus.ActiveElement).2.map SlotElement.payload) ::
      popActivePayloads n (popElement s ActivationStatus.ActiveElement).1

/-- The items of an input queue after one producer pushed an optional signal
of the given type (with its callback) and then the event payloads, in push
order, as `PushSignal` followed by `SinkPush` calls leave them in the tests. -/
def pushedItems (signalType : Nat) (signal : Option Payload) (payloads : List Payload) :
    List OutputElement :=
  (match signal with
    | some callback => [NewOutputElement callback signalType]
    | none => []) ++ payloads.map (fun p => NewOutputElement p 0)

/-- The elements `createElement` makes for a run of events, the first one
with identifier `start`: machine type 1, state 1, the payload of the event. -/
def newElements : Nat → List Payload → List SlotElement
  | _, [] => []
  | start, p :: rest =>
    { id := start, machineType := 1, state := 1, payload := p } :: newElements (start + 1) rest

/-- A slot as `makeSlotAndWorker` makes it, put in the given worker state and
with the given items, in push order, in its input queue. -/
def slotWithInput (pulseState : PulseState) (pulseNumber : Nat) (slotState : SlotState)
    (items : List OutputElement) : Slot :=
  { NewSlot pulseState pulseNumber with slotState := slotState, inputQueue := { items := items } }

end Conveyor

/-! # State-machine matrix (`conveyor/generator/matrix/matrix.go`) -/

namespace matrix

/-- The constant `numPulseStates` of `matrix.go`. -/
abbrev numPulseStates : Nat := 3

/-- The struct `StateMachineSet` of `matrix.go`.  The element type
`StateMachine` is declared outside the available sources and is a type
parameter here. -/
structure StateMachineSet (StateMachine : Type) where
  stateMachines : List StateMachine

/-- The method `StateMachineSet.GetStateMachineByID`: `s.stateMachines[id]`;
`none` is the run-time panic of an index out of range. -/
def StateMachineSet.GetStateMachineByID {StateMachine : Type}
    (s : StateMachineSet StateMachine) (id : Int) : Option StateMachine :=
  if id < 0 then none else s.stateMachines[id.toNat]?

/-- The struct `Matrix` of `matrix.go`: an array of `numPulseStates` sets. -/
structure Matrix (StateMachine : Type) where
  matrix : Fin numPulseStates → StateMachineSet StateMachine

/-- The constant `TestStateMachine MachineType = iota + 1`. -/
def TestStateMachine : Int := 1

/-- The values `0, 1, 2` that `i` takes in `for i := 0; i < numPulseStates; i++`. -/
def pulseStateIndices : List (Fin numPulseStates) := [0, 1, 2]

/-- The statement `m.matrix[i].stateMachines = append(m.matrix[i].stateMachines, sm)`. -/
def Matrix.appendStateMachine {StateMachine : Type} (m : Matrix StateMachine)
    (i : Fin numPulseStates) (sm : StateMachine) : Matrix StateMachine :=
  { matrix := fun j =>
      if j = i then { stateMachines := (m.matrix j).stateMachines ++ [sm] } else m.matrix j }

/-- The function `NewMatrix` of `matrix.go`.  `emptyObject` is the zero value
of `StateMachine` and `smTestStateMachine` the slice returned by
`sample.RawTestStateMachineFactory()` (generated code outside the available
sources), both taken as parameters; `none` is the run-time panic of
`smTestStateMachine[i]` out of range. -/
def NewMatrix {StateMachine : Type} (emptyObject : StateMachine)
    (smTestStateMachine : List StateMachine) : Option (Matrix StateMachine) :=
  let m0 : Matrix StateMachine := { matrix := fun _ => { stateMachines := [] } }
  let m1 := pulseStateIndices.foldl (fun m i => m.appendStateMachine i emptyObject) m0
  pulseStateIndices.foldlM
    (fun m i => (smTestStateMachine[i.val]?).map (fun sm => m.appendStateMachine i sm)) m1

/-- The method `Matrix.GetInitialStateMachine`: `m.matrix[1].stateMachines[1]`;
`none` is the run-time panic of an index out of range. -/
def Matrix.GetInitialStateMachine {StateMachine : Type} (m : Matrix StateMachine) :
    Option StateMachine :=
  (m.matrix 1).stateMachines[1]?

/-- The method `Matrix.GetFutureConfig`: `&m.matrix[0]`. -/
def Matrix.GetFutureConfig {StateMachine : Type} (m : Matrix StateMachine) :
    StateMachineSet StateMachine :=
  m.matrix 0

/-- The method `Matrix.GetPresentConfig`: `&m.matrix[1]`. -/
def Matrix.GetPresentConfig {StateMachine : Type} (m : Matrix StateMachine) :
    StateMachineSet StateMachine :=
  m.matrix 1

/-- The method `Matrix.GetPastConfig`: `&m.matrix[2]`. -/
def Matrix.GetPastConfig {StateMachine : Type} (m : Matrix StateMachine) :
    StateMachineSet StateMachine :=
  m.matrix 2

end matrix

/-! # Sample state machine
(`conveyor/generator/state_machines/sample/sample_state_machine.go`) -/

namespace sample

/-- The type `fsm.ElementState` (package `conveyor/fsm` is outside the
available sources): an unsigned integer; 0 is the terminated state. -/
abbrev ElementState := Nat

/-- The constant `InitState fsm.ElementState = iota`. -/
def InitState : ElementState := 0

/-- The constant `StateFirst`. -/
def StateFirst : ElementState := 1

/-- The constant `StateSecond`. -/
def StateSecond : ElementState := 2

/-- The constant `StateThird`. -/
def StateThird : ElementState := 3

/-- The struct `TestResult` of `sample_state_machine.go`. -/
structure TestResult where
  deriving DecidableEq, Repr

/-- The method `TestResult.Type`: `insolar.ReplyType(42)`. -/
def TestResult.Type (_ : TestResult) : Nat := 42

/-- The reactivation modes of `conveyor/fsm` that the handlers name
(`fsm.Response`). -/
inductive ReactivateMode where
  | Response
  deriving DecidableEq, Repr

/-- The part of `fsm.SlotElementHelper` the handlers use: the mode recorded by
the last `DeactivateTill` call, if any. -/
structure SlotElementHelper where
  deactivatedTill : Option ReactivateMode
  deriving DecidableEq, Repr

/-- The call `helper.DeactivateTill(mode)`. -/
def SlotElementHelper.DeactivateTill (helper : SlotElementHelper) (mode : ReactivateMode) :
    SlotElementHelper :=
  { helper with deactivatedTill := some mode }

/-- The interface `adapter.SendResponseHelper`: `SendResponse(helper, result,
respHandlerID)` returns a Go error, `none` being `nil`.  Its implementation is
outside the available sources, so it is a parameter of the handlers. -/
structure SendResponseHelper where
  SendResponse : SlotElementHelper → TestResult → Nat → Option String

/-- The function `initPresentHandler`: returns `StateFirst, nil` whatever its
arguments.  `Event` and `RawPayload` stand for `custom.Event` and
`interface{}`, `CustomPayload` for `custom.Payload`. -/
def initPresentHandler {Event RawPayload CustomPayload : Type} (_helper : SlotElementHelper)
    (_input : Event) (_payload : RawPayload) : ElementState × Option CustomPayload :=
  (StateFirst, none)

/-- The function `initFutureHandler`: `panic("implement me")`. -/
def initFutureHandler {Event RawPayload CustomPayload : Type} (_helper : SlotElementHelper)
    (_input : Event) (_payload : RawPayload) :
    Conveyor.Result (ElementState × Option CustomPayload) :=
  Conveyor.Result.panic "implement me"

/-- The function `transitPresentFirst`: deactivates the element till the
response, sends the response for handler `StateFirst`, panics with the error
if there is one and returns `StateSecond` otherwise.  Returns the helper after
the call together with the outcome. -/
def transitPresentFirst {Event CustomPayload : Type} (helper : SlotElementHelper)
    (_input : Event) (_payload : Option CustomPayload) (adapterHelper : SendResponseHelper) :
    SlotElementHelper × Conveyor.Result ElementState :=
  let helper1 := helper.DeactivateTill ReactivateMode.Response
  match adapterHelper.SendResponse helper1 TestResult.mk StateFirst with
  | some err => (helper1, Conveyor.Result.panic err)
  | none => (helper1, Conveyor.Result.ret StateSecond)

/-- The function `responseAdapterHelper`: returns `StateThird`. -/
def responseAdapterHelper {Event CustomPayload : Type} (_helper : SlotElementHelper)
    (_input : Event) (_payload : Option CustomPayload) (_respPayload : Option TestResult) :
    ElementState :=
  StateThird

/-- The function `transitPresentThird`: returns 0. -/
def transitPresentThird {Event CustomPayload : Type} (_helper : SlotElementHelper)
    (_input : Event) (_payload : Option CustomPayload) : ElementState :=
  0

/-- The handler functions that `Register` names. -/
inductive Handler where
  | initFutureHandler
  | initPresentHandler
  | transitPresentFirst
  | responseAdapterHelper
  | transitPresentThird
  deriving DecidableEq, Repr

/-- The kinds of declaration the generator's builder offers in `Register`. -/
inductive DeclarationKind where
  | InitFuture
  | Init
  | Transition
  | AdapterResponse
  deriving DecidableEq, Repr

/-- One declaration of `Register`: the state it is declared for, the handler,
and the next state declared for the handler (`InitFuture` declares none). -/
structure Declaration where
  kind : DeclarationKind
  state : ElementState
  handler : Handler
  next : Option ElementState
  deriving DecidableEq, Repr

/-- The function `Register`: the declarations it makes on the machine
`SampleStateMachine`, in order.  The two `Init` declarations are for the
initial state `InitState`. -/
def Register : List Declaration :=
  [ { kind := DeclarationKind.InitFuture, state := InitState,
      handler := Handler.initFutureHandler, next := none },
    { kind := DeclarationKind.Init, state := InitState,
      handler := Handler.initPresentHandler, next := some StateFirst },
    { kind := DeclarationKind.Transition, state := StateFirst,
      handler := Handler.transitPresentFirst, next := some StateSecond },
    { kind := DeclarationKind.AdapterResponse, state := StateFirst,
      handler := Handler.responseAdapterHelper, next := some StateThird },
    { kind := DeclarationKind.Transition, state := StateThird,
      handler := Handler.transitPresentThird, next := some 0 } ]

/-- The arguments a handler call receives; each handler takes the ones of its
signature. -/
structure Inputs (Event RawPayload CustomPayload : Type) where
  helper : SlotElementHelper
  input : Event
  rawPayload : RawPayload
  payload : Option CustomPayload
  respPayload : Option TestResult
  adapterHelper : SendResponseHelper

/-- Calls the named handler on the arguments and gives the state it returns,
or its panic value. -/
def Handler.call {Event RawPayload CustomPayload : Type} (h : Handler)
    (args : Inputs Event RawPayload CustomPayload) : Conveyor.Result ElementState :=
  match h with
  | Handler.initFutureHandler =>
    match (sample.initFutureHandler args.helper args.input args.rawPayload :
        Conveyor.Result (ElementState × Option CustomPayload)) with
    | Conveyor.Result.ret r => Conveyor.Result.ret r.1
    | Conveyor.Result.panic msg => Conveyor.Result.panic msg
  | Handler.initPresentHandler =>
    Conveyor.Result.ret
      (sample.initPresentHandler args.helper args.input args.rawPayload :
        ElementState × Option CustomPayload).1
  | Handler.transitPresentFirst =>
    (sample.transitPresentFirst args.helper args.input args.payload args.adapterHelper).2
  | Handler.responseAdapterHelper =>
    Conveyor.Result.ret
      (sample.responseAdapterHelper args.helper args.input args.payload args.respPayload)
  | Handler.transitPresentThird =>
    Conveyor.Result.ret (sample.transitPresentThird args.helper args.input args.payload)

/-- The handler `Register` declares of the given kind for the given state. -/
def declared (kind : DeclarationKind) (state : ElementState) : Option Handler :=
  (Register.find? (fun d => d.kind == kind && d.state == state)).map Declaration.handler

/-- Calls the handler declared of the given kind for the given state; a state
without such a declaration is the fatal missing-handler error. -/
def step {Event RawPayload CustomPayload : Type} (kind : DeclarationKind)
    (state : ElementState) (args : Inputs Event RawPayload CustomPayload) :
    Conveyor.Result ElementState :=
  match declared kind state with
  | some h => h.call args
  | none => Conveyor.Result.panic "missing handler"

/-- The life of one element in the Present phase: init, then the transition
declared for the state reached, then the adapter response declared for the
state in which the response was dispatched, then the transition declared for
the state the response handler returned.  Gives the states reached, in
order. -/
def lifecycle {Event RawPayload CustomPayload : Type}
    (args : Inputs Event RawPayload CustomPayload) : Conveyor.Result (List ElementState) :=
  match step DeclarationKind.Init InitState args with
  | Conveyor.Result.panic msg => Conveyor.Result.panic msg
  | Conveyor.Result.ret s1 =>
    match step DeclarationKind.Transition s1 args with
    | Conveyor.Result.panic msg => Conveyor.Result.panic msg
    | Conveyor.Result.ret s2 =>
      match step DeclarationKind.AdapterResponse s1 args with
      | Conveyor.Result.panic msg => Conveyor.Result.panic msg
      | Conveyor.Result.ret s3 =>
        match step DeclarationKind.Transition s3 args with
        | Conveyor.Result.panic msg => Conveyor.Result.panic msg
        | Conveyor.Result.ret s4 => Conveyor.Result.ret [s1, s2, s3, s4]

end sample

/-! # Storage transactions (`ledger/storage/transaction.go`) -/

namespace storage

/-- A Go `byte`. -/
abbrev Byte := Fin 256

/-- The Go builtin `make([]byte, n)`: `n` zero bytes. -/
def make (n : Nat) : List Byte := List.replicate n 0

/-- The Go builtin `copy(dst, src)`: the first `min(len(dst), len(src))`
bytes of `dst` are replaced by those of `src`; gives `dst` after the call and
the number of bytes copied. -/
def copy (dst src : List Byte) : List Byte × Nat :=
  (src.take dst.length ++ dst.drop src.length, min dst.length src.length)

/-- The function `prefixkey` of `transaction.go`.  The constant
`record.RefIDSize` is declared outside the available sources and is a
parameter. -/
def prefixkey (RefIDSize : Nat) (pfx : Byte) (key : List Byte) : List Byte :=
  let k := make (RefIDSize + 1)
  let k := k.set 0 pfx
  k.take 1 ++ (copy (k.drop 1) key).1

/-- The errors `badger` reports (an external library): the sentinel
`badger.ErrKeyNotFound` and any other error, named by its text. -/
inductive BadgerError where
  | ErrKeyNotFound
  | other (msg : String)
  deriving DecidableEq, Repr

/-- A Go `error` as the functions of `transaction.go` return it, by the
package that made the value: the sentinel `ErrNotFound` of package `storage`,
an error passed on from `badger`, or an error passed on from the `record` and
`index` codecs.  `ErrNotFound` is a variable of package `storage`, which
neither `badger` nor the codec packages can return. -/
inductive Error where
  | ErrNotFound
  | badger (e : BadgerError)
  | codec (msg : String)
  deriving DecidableEq, Repr

/-- A `badger.Item`: what `item.Value()` and `item.ValueCopy(nil)` give. -/
structure Item where
  value : Except BadgerError (List Byte)

/-- A `badger.Txn` (external library), by its documented contract: a lookup
sees the writes made in the same transaction, the latest first, and reports
`ErrKeyNotFound` for a key without entry; writes need an update transaction;
`fault` is an error condition of the transaction (discarded, too big, ...)
that every call reports. -/
structure Txn where
  update : Bool
  fault : Option BadgerError
  entries : List (List Byte × Item)

/-- The method `txn.Get(k)` of `badger`. -/
def Txn.Get (txn : Txn) (k : List Byte) : Except BadgerError Item :=
  match txn.fault with
  | some e => Except.error e
  | none =>
    match txn.entries.find? (fun entry => entry.1 == k) with
    | some entry => Except.ok entry.2
    | none => Except.error BadgerError.ErrKeyNotFound

/-- The method `txn.Set(k, val)` of `badger`: the transaction after the call
and the error returned, `none` being `nil`. -/
def Txn.Set (txn : Txn) (k val : List Byte) : Txn × Option BadgerError :=
  match txn.fault with
  | some e => (txn, some e)
  | none =>
    if txn.update then
      ({ txn with entries := (k, { value := Except.ok val }) :: txn.entries }, none)
    else
      (txn, some (BadgerError.other "No sets or deletes are allowed in a read-only transaction"))

/-- The declarations of packages `storage`, `record` and `index` that
`transaction.go` uses and that are outside the available sources: the
constant `record.RefIDSize`, the scope bytes, `Reference.CoreRef`,
`record.EncodePulseNum`, and the record and lifeline codecs
(`DecodeToRecord` stands for `record.DecodeToRaw` followed by `ToRecord`). -/
structure Deps (Reference Record ClassLifeline ObjectLifeline : Type) where
  RefIDSize : Nat
  scopeIDRecord : Byte
  scopeIDLifeline : Byte
  scopeIDEntropy : Byte
  CoreRef : Reference → List Byte
  EncodePulseNum : Nat → List Byte
  DecodeToRecord : List Byte → Except String Record
  DecodeClassLifeline : List Byte → Except String ClassLifeline
  EncodeClassLifeline : ClassLifeline → Except String (List Byte)
  DecodeObjectLifeline : List Byte → Except String ObjectLifeline
  EncodeObjectLifeline : ObjectLifeline → Except String (List Byte)

/-- The struct `TransactionManager` of `transaction.go`. -/
structure TransactionManager where
  txn : Txn

/-- The method `TransactionManager.GetRecord`. -/
def TransactionManager.GetRecord {Reference Record ClassLifeline ObjectLifeline : Type}
    (deps : Deps Reference Record ClassLifeline ObjectLifeline) (m : TransactionManager)
    (ref : Reference) : Except Error Record :=
  let k := prefixkey deps.RefIDSize deps.scopeIDRecord (deps.CoreRef ref)
  match m.txn.Get k with
  | Except.error err =>
    if err = BadgerError.ErrKeyNotFound then Except.error Error.ErrNotFound
    else Except.error (Error.badger err)
  | Except.ok item =>
    match item.value with
    | Except.error err => Except.error (Error.badger err)
    | Except.ok buf =>
      match deps.DecodeToRecord buf with
      | Except.error err => Except.error (Error.codec err)
      | Except.ok rec => Except.ok rec

/-- The method `TransactionManager.GetClassIndex`. -/
def TransactionManager.GetClassIndex {Reference Record ClassLifeline ObjectLifeline : Type}
    (deps : Deps Reference Record ClassLifeline ObjectLifeline) (m : TransactionManager)
    (ref : Reference) : Except Error ClassLifeline :=
  let k := prefixkey deps.RefIDSize deps.scopeIDLifeline (deps.CoreRef ref)
  match m.txn.Get k with
  | Except.error err =>
    if err = BadgerError.ErrKeyNotFound then Except.error Error.ErrNotFound
    else Except.error (Error.badger err)
  | Except.ok item =>
    match item.value with
    | Except.error err => Except.error (Error.badger err)
    | Except.ok buf =>
      match deps.DecodeClassLifeline buf with
      | Except.error err => Except.error (Error.codec err)
      | Except.ok idx => Except.ok idx

/-- The method `TransactionManager.SetClassIndex`: the manager after the call
and the error returned, `none` being `nil`. -/
def TransactionManager.SetClassIndex {Reference Record ClassLifeline ObjectLifeline : Type}
    (deps : Deps Reference Record ClassLifeline ObjectLifeline) (m : TransactionManager)
    (ref : Reference) (idx : ClassLifeline) : TransactionManager × Option Error :=
  let k := prefixkey deps.RefIDSize deps.scopeIDLifeline (deps.CoreRef ref)
  match deps.EncodeClassLifeline idx with
  | Except.error err => (m, some (Error.codec err))
  | Except.ok encoded =>
    ({ m with txn := (m.txn.Set k encoded).1 }, (m.txn.Set k encoded).2.map Error.badger)

/-- The method `TransactionManager.GetObjectIndex`. -/
def TransactionManager.GetObjectIndex {Reference Record ClassLifeline ObjectLifeline : Type}
    (deps : Deps Reference Record ClassLifeline ObjectLifeline) (m : TransactionManager)
    (ref : Reference) : Except Error ObjectLifeline :=
  let k := prefixkey deps.RefIDSize deps.scopeIDLifeline (deps.CoreRef ref)
  match m.txn.Get k with
  | Except.error err =>
    if err = BadgerError.ErrKeyNotFound then Except.error Error.ErrNotFound
    else Except.error (Error.badger err)
  | Except.ok item =>
    match item.value with
    | Except.error err => Except.error (Error.badger err)
    | Except.ok buf =>
      match deps.DecodeObjectLifeline buf with
      | Except.error err => Except.error (Error.codec err)
      | Except.ok idx => Except.ok idx

/-- The method `TransactionManager.SetObjectIndex`: the manager after the call
and the error returned, `none` being `nil`. -/
def TransactionManager.SetObjectIndex {Reference Record ClassLifeline ObjectLifeline : Type}
    (deps : Deps Reference Record ClassLifeline ObjectLifeline) (m : TransactionManager)
    (ref : Reference) (idx : ObjectLifeline) : TransactionManager × Option Error :=
  let k := prefixkey deps.RefIDSize deps.scopeIDLifeline (deps.CoreRef ref)
  match deps.EncodeObjectLifeline idx with
  | Except.error err => (m, some (Error.codec err))
  | Except.ok encoded =>
    ({ m with txn := (m.txn.Set k encoded).1 }, (m.txn.Set k encoded).2.map Error.badger)

/-- The method `TransactionManager.GetEntropy`. -/
def TransactionManager.GetEntropy {Reference Record ClassLifeline ObjectLifeline : Type}
    (deps : Deps Reference Record ClassLifeline ObjectLifeline) (m : TransactionManager)
    (pulse : Nat) : Except Error (List Byte) :=
  let k := prefixkey deps.RefIDSize deps.scopeIDEntropy (deps.EncodePulseNum pulse)
  match m.txn.Get k with
  | Except.error err =>
    if err = BadgerError.ErrKeyNotFound then Except.error Error.ErrNotFound
    else Except.error (Error.badger err)
  | Except.ok item =>
    match item.value with
    | Except.error err => Except.error (Error.badger err)
    | Except.ok buf => Except.ok buf

/-- The method `TransactionManager.Get`. -/
def TransactionManager.Get (m : TransactionManager) (key : List Byte) :
    Except Error (List Byte) :=
  match m.txn.Get key with
  | Except.error err =>
    if err = BadgerError.ErrKeyNotFound then Except.error Error.ErrNotFound
    else Except.error (Error.badger err)
  | Except.ok item =>
    match item.value with
    | Except.error err => Except.error (Error.badger err)
    | Except.ok buf => Except.ok buf

end storage

/-! # RPC controller (`network/controller/rpc_controller.go`) -/

namespace controller

/-- A Go `byte`. -/
abbrev Byte := Fin 256

/-- A Go `context.Context`, as far as the controller uses it: the trace
identifier it carries (`inslogger.TraceID`). -/
structure Context where
  traceID : String
  deriving DecidableEq, Repr

/-- The type `insolar.RemoteProcedure`: `func(ctx, args [][]byte) ([]byte,
error)`; the pair is the result (`none` is `nil`) and the error (`none` is
`nil`, otherwise its text). -/
abbrev RemoteProcedure := Context → List (List Byte) → Option (List Byte) × Option String

/-- The struct `insolar.Cascade` (declared outside the available sources), by
the fields the controller reads. -/
structure Cascade (Ref : Type) where
  NodeIds : List Ref
  Entropy : List Byte
  ReplicationFactor : Nat

/-- The struct `RequestRPC`. -/
structure RequestRPC where
  Method : String
  Data : List (List Byte)

/-- The struct `ResponseRPC`. -/
structure ResponseRPC where
  Success : Bool
  Result : Option (List Byte)
  Error : String
  deriving DecidableEq, Repr

/-- The struct `RequestCascade`. -/
structure RequestCascade (Ref : Type) where
  TraceID : String
  RPC : RequestRPC
  Cascade : Cascade Ref

/-- The struct `ResponseCascade`. -/
structure ResponseCascade where
  Success : Bool
  Error : String
  deriving DecidableEq, Repr

/-- The collaborators of the controller that are outside the available
sources: `Network.GetNodeID`, `Reference.String`, `cascade.CalculateNextNodes`
(with the optional current node) and `Network.SendRequest`, which acts on the
state `σ` of the network and returns its error, `none` being `nil`. -/
structure Network (σ Ref : Type) where
  GetNodeID : Ref
  refString : Ref → String
  CalculateNextNodes : Cascade Ref → Option Ref → Except String (List Ref)
  SendRequest : σ → Ref → RequestCascade Ref → σ × Option String

/-- The struct `rpcController`: its network and its method table, a Go map
from names to procedures. -/
structure rpcController (σ Ref : Type) where
  network : Network σ Ref
  methodTable : String → Option RemoteProcedure

/-- The method `RemoteProcedureRegister`: `rpc.methodTable[name] = method`. -/
def rpcController.RemoteProcedureRegister {σ Ref : Type} (rpc : rpcController σ Ref)
    (name : String) (method : RemoteProcedure) : rpcController σ Ref :=
  { rpc with methodTable := fun n => if n = name then some method else rpc.methodTable n }

/-- The method `invoke`. -/
def rpcController.invoke {σ Ref : Type} (rpc : rpcController σ Ref) (ctx : Context)
    (name : String) (data : List (List Byte)) : Option (List Byte) × Option String :=
  match rpc.methodTable name with
  | none => (none, some ("RPC with name " ++ name ++ " is not registered"))
  | some method => method ctx data

/-- The method `requestCascadeSendMessage`: builds the cascade request and
sends it to the node; returns the error of `SendRequest`.  The goroutine that
waits for the response only logs and is left out. -/
def rpcController.requestCascadeSendMessage {σ Ref : Type} (rpc : rpcController σ Ref)
    (st : σ) (ctx : Context) (data : Cascade Ref) (nodeID : Ref) (method : String)
    (args : List (List Byte)) : σ × Option String :=
  rpc.network.SendRequest st nodeID
    { TraceID := ctx.traceID, RPC := { Method := method, Data := args }, Cascade := data }

/-- The state of the loop `for _, nextNode := range nextNodes` of
`initCascadeSendMessage`: the network state, the slice `failedNodes`, and, as
a record of what the loop did, the nodes a send was attempted to with the
error of each send. -/
structure SendLoop (σ Ref : Type) where
  state : σ
  failedNodes : List String
  attempts : List (Ref × Option String)

/-- The loop `for _, nextNode := range nextNodes` of `initCascadeSendMessage`. -/
def rpcController.sendToNextNodes {σ Ref : Type} (rpc : rpcController σ Ref) (ctx : Context)
    (data : Cascade Ref) (method : String) (args : List (List Byte)) :
    List Ref → SendLoop σ Ref → SendLoop σ Ref
  | [], acc => acc
  | nextNode :: rest, acc =>
    match rpc.requestCascadeSendMessage acc.state ctx data nextNode method args with
    | (st, some err) =>
      rpc.sendToNextNodes ctx data method args rest
        { state := st,
          failedNodes := acc.failedNodes ++ [rpc.network.refString nextNode],
          attempts := acc.attempts ++ [(nextNode, some err)] }
    | (st, none) =>
      rpc.sendToNextNodes ctx data method args rest
        { state := st, failedNodes := acc.failedNodes,
          attempts := acc.attempts ++ [(nextNode, none)] }

/-- What `initCascadeSendMessage` leaves: the network state, the sends it
attempted with their errors, and the error it returns, `none` being `nil`. -/
structure CascadeSend (σ Ref : Type) where
  state : σ
  attempts : List (Ref × Option String)
  err : Option String

/-- The method `initCascadeSendMessage`. -/
def rpcController.initCascadeSendMessage {σ Ref : Type} (rpc : rpcController σ Ref) (st : σ)
    (ctx : Context) (data : Cascade Ref) (findCurrentNode : Bool) (method : String)
    (args : List (List Byte)) : CascadeSend σ Ref :=
  if data.NodeIds.length = 0 then
    { state := st, attempts := [], err := some "node IDs list should not be empty" }
  else if data.ReplicationFactor = 0 then
    { state := st, attempts := [], err := some "replication factor should not be zero" }
  else
    match (if findCurrentNode then
        rpc.network.CalculateNextNodes data (some rpc.network.GetNodeID)
      else rpc.network.CalculateNextNodes data none) with
    | Except.error err =>
      { state := st, attempts := [], err := some ("Failed to CalculateNextNodes: " ++ err) }
    | Except.ok nextNodes =>
      if nextNodes.length = 0 then
        { state := st, attempts := [], err := none }
      else
        let sent := rpc.sendToNextNodes ctx data method args nextNodes
          { state := st, failedNodes := [], attempts := [] }
        if sent.failedNodes.length > 0 then
          { state := sent.state, attempts := sent.attempts,
            err := some ("Failed to send cascade message to nodes: " ++
              String.intercalate ", " sent.failedNodes) }
        else
          { state := sent.state, attempts := sent.attempts, err := none }

/-- The method `processMessage`: the response data it builds and the Go error
it returns, `none` being `nil`. -/
def rpcController.processMessage {σ Ref : Type} (rpc : rpcController σ Ref) (ctx : Context)
    (payload : RequestRPC) : ResponseRPC × Option String :=
  match rpc.invoke ctx payload.Method payload.Data with
  | (_, some err) => ({ Success := false, Result := none, Error := err }, none)
  | (result, none) => ({ Success := true, Result := result, Error := "" }, none)

/-- What `processCascade` leaves: what the forwarding call left, the response
data it builds and the Go error it returns, `none` being `nil`. -/
structure CascadeProcessed (σ Ref : Type) where
  forwarding : CascadeSend σ Ref
  response : ResponseCascade
  goError : Option String

/-- The method `processCascade`. -/
def rpcController.processCascade {σ Ref : Type} (rpc : rpcController σ Ref) (st : σ)
    (_ctx : Context) (payload : RequestCascade Ref) : CascadeProcessed σ Ref :=
  let ctx : Context := { traceID := payload.TraceID }
  let generalError := ""
  let invoked := rpc.invoke ctx payload.RPC.Method payload.RPC.Data
  let generalError :=
    match invoked.2 with
    | some invokeErr => generalError ++ (invokeErr ++ "; ")
    | none => generalError
  let sent := rpc.initCascadeSendMessage st ctx payload.Cascade true payload.RPC.Method
    payload.RPC.Data
  let generalError :=
    match sent.err with
    | some sendErr => generalError ++ sendErr
    | none => generalError
  if generalError ≠ "" then
    { forwarding := sent, response := { Success := false, Error := generalError },
      goError := none }
  else
    { forwarding := sent, response := { Success := true, Error := "" }, goError := none }

/-- Stated from the description of `initCascadeSendMessage` rather than from
its code: the request is sent with `SendRequest` to every node of the list, in
order, each send starting from the network state the send before left,
whatever error that send returned.  Returns the network state after the last
send and, for each node in order, the error `SendRequest` returned for it. -/
def Network.sendToEveryNode {σ Ref : Type} (net : Network σ Ref) (req : RequestCascade Ref) :
    List Ref → σ → σ × List (Ref × Option String)
  | [], st => (st, [])
  | node :: rest, st =>
    ((net.sendToEveryNode req rest (net.SendRequest st node req).1).1,
      (node, (net.SendRequest st node req).2) ::
        (net.sendToEveryNode req rest (net.SendRequest st node req).1).2)

end controller

/-! # API front-end (`api/main.go`) -/

namespace api

/-- A Go `interface{}` value as `WriteError` stores it in a JSON map: a
string, an integer or a nested map. -/
inductive JSON where
  | str (s : String)
  | int (n : Int)
  | obj (fields : List (String × JSON))

/-- A Go `map[string]interface{}`: its entries, each key once. -/
abbrev Answer := List (String × JSON)

/-- The function `WriteError` of `main.go`. -/
def WriteError (message : String) (code : Int) : Answer :=
  [("error", JSON.obj [("message", JSON.str message), ("code", JSON.int code)])]

/-- The type `QType` (declared outside the available sources) with the five
query types `ProcessQueryType` names; `unknown` is any other value. -/
inductive QType where
  | CreateMember
  | DumpUserInfo
  | DumpAllUsers
  | GetBalance
  | SendMoney
  | unknown (n : Nat)
  deriving DecidableEq, Repr

/-- A call of a handler of `RequestHandler`. -/
inductive HandlerCall where
  | ProcessCreateMember
  | ProcessDumpUsers (all : Bool)
  | ProcessGetBalance
  | ProcessSendMoney
  deriving DecidableEq, Repr

/-- The struct `RequestHandler` (declared outside the available sources): its
query identifier and what each of its handlers returns, the answer and the
error (`none` is `nil`, otherwise its text). -/
structure RequestHandler where
  qid : String
  ProcessCreateMember : Answer × Option String
  ProcessDumpUsers : Bool → Answer × Option String
  ProcessGetBalance : Answer × Option String
  ProcessSendMoney : Answer × Option String

/-- What `ProcessQueryType` leaves: the map it returns and the handler calls
it made. -/
structure Processed where
  answer : Answer
  calls : List HandlerCall

/-- The end of `ProcessQueryType`, after the `switch`: a handler error
replaces the answer by an error object. -/
def finishQuery (handled : Answer × Option String) (call : HandlerCall) : Processed :=
  match handled.2 with
  | some handlerError =>
    { answer := WriteError ("Handler error: " ++ handlerError) (-3), calls := [call] }
  | none => { answer := handled.1, calls := [call] }

/-- The function `ProcessQueryType` of `main.go`.  `QTypeFromString` is
declared outside the available sources and is a parameter. -/
def ProcessQueryType (QTypeFromString : String → QType) (rh : RequestHandler)
    (qTypeStr : String) : Processed :=
  match QTypeFromString qTypeStr with
  | QType.CreateMember => finishQuery rh.ProcessCreateMember HandlerCall.ProcessCreateMember
  | QType.DumpUserInfo =>
    finishQuery (rh.ProcessDumpUsers false) (HandlerCall.ProcessDumpUsers false)
  | QType.DumpAllUsers =>
    finishQuery (rh.ProcessDumpUsers true) (HandlerCall.ProcessDumpUsers true)
  | QType.GetBalance => finishQuery rh.ProcessGetBalance HandlerCall.ProcessGetBalance
  | QType.SendMoney => finishQuery rh.ProcessSendMoney HandlerCall.ProcessSendMoney
  | QType.unknown _ =>
    { answer :=
        WriteError ("Wrong query parameter \x27query_type\x27 = \x27" ++ qTypeStr ++ "\x27") (-2),
      calls := [] }

/-- The struct `configuration.ApiRunner` (declared outside the available
sources), by the fields `NewApiRunner` reads. -/
structure ApiRunnerConfig where
  Port : Nat
  Location : String
  deriving DecidableEq, Repr

/-- The part of `http.Server` that `NewApiRunner` sets. -/
structure Server where
  Addr : String
  deriving DecidableEq, Repr

/-- The struct `ApiRunner` of `main.go`; the message router is left nil by
`NewApiRunner`. -/
structure ApiRunner where
  server : Server
  cfg : ApiRunnerConfig
  deriving DecidableEq, Repr

/-- The function `NewApiRunner` of `main.go`; `none` is the nil configuration
and an error is given by its text. -/
def NewApiRunner (cfg : Option ApiRunnerConfig) : Except String ApiRunner :=
  match cfg with
  | none => Except.error "[ NewApiRunner ] config is nil"
  | some c =>
    if c.Port = 0 then Except.error "[ NewApiRunner ] Port must not be 0"
    else if c.Location.length = 0 then Except.error "[ NewApiRunner ] Location must exist"
    else
      let portStr := toString c.Port
      Except.ok { server := { Addr := ":" ++ portStr }, cfg := c }

end api

/-! # Genesis (`bootstrap/genesis/genesis.go`) -/

namespace genesis

/-- The struct `nodeInfo` of `genesis.go`; `crypto.PrivateKey` is a type
parameter. -/
structure nodeInfo (PrivateKey : Type) where
  privateKey : PrivateKey
  publicKey : String

/-- An entry of `config.DiscoveryNodes` (the configuration is declared outside
the available sources), by the fields `activateDiscoveryNodes` reads. -/
structure DiscoveryNode where
  Host : String
  Role : String

/-- The struct `certificate.BootstrapNode`, by the fields set here. -/
structure BootstrapNode where
  PublicKey : String
  Host : String
  NodeRef : String

/-- The struct `genesisNode` of `genesis.go`. -/
structure genesisNode (PrivateKey Ref : Type) where
  node : BootstrapNode
  privKey : PrivateKey
  ref : Ref
  role : String

/-- The struct `noderecord.NodeRecord`, by the fields of its `Record`. -/
structure NodeRecord where
  PublicKey : String
  Role : Nat

/-- The struct `Generator` of `genesis.go`, by what the two functions below
use: the discovery nodes of its configuration, its two references, and its
collaborators declared outside the available sources: the artifact manager
(acting on a state `σ`; an error is given by its text, `none` being `nil`),
`insolar.Serialize`, `insolar.NewReference` on the record of the root domain,
`Reference.String`, the empty reference and
`insolar.GetStaticRoleFromString`. -/
structure Generator (σ ID Ref : Type) where
  DiscoveryNodes : List DiscoveryNode
  rootDomainRef : Ref
  nodeDomainRef : Ref
  emptyRef : Ref
  RegisterRequest : σ → Ref → String → σ × Except String ID
  ActivateObject : σ → Ref → Ref → Ref → Ref → Bool → List (Fin 256) → σ × Option String
  RegisterResult : σ → Ref → Ref → σ × Option String
  Serialize : NodeRecord → Except String (List (Fin 256))
  NewReference : Ref → ID → Ref
  refString : Ref → String
  GetStaticRoleFromString : String → Nat

/-- The method `activateNodeRecord`: the state of the artifact manager after
the call and the contract reference or the error. -/
def Generator.activateNodeRecord {σ ID Ref : Type} (g : Generator σ ID Ref) (st : σ)
    (record : NodeRecord) (name : String) (nodeRecordProto : Ref) : σ × Except String Ref :=
  match g.Serialize record with
  | Except.error err =>
    (st, Except.error ("[ activateNodeRecord ] Couldn\x27t serialize node instance: " ++ err))
  | Except.ok nodeData =>
    match g.RegisterRequest st g.rootDomainRef name with
    | (st1, Except.error err) =>
      (st1, Except.error ("[ activateNodeRecord ] Couldn\x27t register request: " ++ err))
    | (st1, Except.ok nodeID) =>
      let contract := g.NewReference g.rootDomainRef nodeID
      match g.ActivateObject st1 g.emptyRef contract g.nodeDomainRef nodeRecordProto false
          nodeData with
      | (st2, some err) =>
        (st2, Except.error
          ("[ activateNodeRecord ] Could\x27n activateNodeRecord node object: " ++ err))
      | (st2, none) =>
        match g.RegisterResult st2 g.rootDomainRef contract with
        | (st3, some err) =>
          (st3, Except.error ("[ activateNodeRecord ] Couldn\x27t register result: " ++ err))
        | (st3, none) => (st3, Except.ok contract)

/-- How a call ends: with a value, with a returned error, or with a run-time
panic. -/
inductive Outcome (α : Type) where
  | ok (a : α)
  | error (msg : String)
  | panic (msg : String)

/-- The state of the loop of `activateDiscoveryNodes`: the state of the
artifact manager, the entries of `nodes` filled so far (entry `i` is assigned
in iteration `i`, so they are kept in order), and, as a record of what the
loop did, the `activateNodeRecord` calls made, each with the record name and
what it returned. -/
structure ActivateLoop (σ PrivateKey Ref : Type) where
  state : σ
  nodes : List (genesisNode PrivateKey Ref)
  calls : List (String × Except String Ref)

/-- What `activateDiscoveryNodes` leaves: the state of the artifact manager,
the `activateNodeRecord` calls made with what they returned, and its
outcome. -/
structure Activated (σ PrivateKey Ref : Type) where
  state : σ
  calls : List (String × Except String Ref)
  result : Outcome (List (genesisNode PrivateKey Ref))

/-- The loop `for i, discoverNode := range g.config.DiscoveryNodes` of
`activateDiscoveryNodes`, from iteration `i` on. -/
def Generator.activateLoop {σ ID Ref PrivateKey : Type} (g : Generator σ ID Ref)
    (nodeRecordProto : Ref) (nodesInfo : List (nodeInfo PrivateKey)) :
    List DiscoveryNode → Nat → ActivateLoop σ PrivateKey Ref → Activated σ PrivateKey Ref
  | [], _, acc => { state := acc.state, calls := acc.calls, result := Outcome.ok acc.nodes }
  | discoverNode :: rest, i, acc =>
    match nodesInfo[i]? with
    | none =>
      { state := acc.state, calls := acc.calls,
        result := Outcome.panic "runtime error: index out of range" }
    | some info =>
      let privKey := info.privateKey
      let nodePubKey := info.publicKey
      let nodeState : NodeRecord :=
        { PublicKey := nodePubKey, Role := g.GetStaticRoleFromString discoverNode.Role }
      match g.activateNodeRecord acc.state nodeState ("discoverynoderecord_" ++ toString i)
          nodeRecordProto with
      | (st, Except.error err) =>
        { state := st,
          calls := acc.calls ++ [("discoverynoderecord_" ++ toString i, Except.error err)],
          result := Outcome.error
            ("[ activateDiscoveryNodes ] Couldn\x27t activateNodeRecord node instance: " ++ err) }
      | (st, Except.ok contract) =>
        g.activateLoop nodeRecordProto nodesInfo rest (i + 1)
          { state := st,
            nodes := acc.nodes ++
              [{ node := { PublicKey := nodePubKey, Host := discoverNode.Host,
                           NodeRef := g.refString contract },
                 privKey := privKey, ref := contract, role := discoverNode.Role }],
            calls := acc.calls ++ [("discoverynoderecord_" ++ toString i, Except.ok contract)] }

/-- The method `activateDiscoveryNodes` of `genesis.go`. -/
def Generator.activateDiscoveryNodes {σ ID Ref PrivateKey : Type} (g : Generator σ ID Ref)
    (st : σ) (nodeRecordProto : Ref) (nodesInfo : List (nodeInfo PrivateKey)) :
    Activated σ PrivateKey Ref :=
  if nodesInfo.length ≠ g.DiscoveryNodes.length then
    { state := st, calls := [],
      result := Outcome.error ("[ activateDiscoveryNodes ] len of nodesInfo param must be " ++
        "equal to len of DiscoveryNodes in genesis config") }
  else
    g.activateLoop nodeRecordProto nodesInfo g.DiscoveryNodes 0
      { state := st, nodes := [], calls := [] }

/-- Entry `k` of a node list is the one iteration `k` assigns: the public
and private key of `nodesInfo[k]`, the host and role of `DiscoveryNodes[k]`,
and the reference that the call of `activateNodeRecord` for the record named
`discoverynoderecord_<k>`, call number `k`, returned. -/
def Generator.entryAt {σ ID Ref PrivateKey : Type} (g : Generator σ ID Ref)
    (nodesInfo : List (nodeInfo PrivateKey)) (calls : List (String × Except String Ref))
    (nodes : List (genesisNode PrivateKey Ref)) (k : Nat) : Prop :=
  ∃ info discoverNode contract,
    nodesInfo[k]? = some info ∧ g.DiscoveryNodes[k]? = some discoverNode ∧
    calls[k]? = some ("discoverynoderecord_" ++ toString k, Except.ok contract) ∧
    nodes[k]? = some
      { node := { PublicKey := info.publicKey, Host := discoverNode.Host,
                  NodeRef := g.refString contract },
        privKey := info.privateKey, ref := contract, role := discoverNode.Role }

/-- Stated from the description of `activateDiscoveryNodes` rather than from
its code: for the discovery nodes from index `i` on, each paired with its
`nodeInfo`, `activateNodeRecord` is called for the record named
`discoverynoderecord_<i>`, with the public key of the `nodeInfo` and the role
of the discovery node, each call starting from the state of the artifact
manager the call before left; nothing is called after a call that failed.
Returns the state after the last call and, in order, the record names with
what `activateNodeRecord` returned for each. -/
def Generator.activations {σ ID Ref PrivateKey : Type} (g : Generator σ ID Ref)
    (nodeRecordProto : Ref) :
    List (nodeInfo PrivateKey × DiscoveryNode) → Nat → σ → σ × List (String × Except String Ref)
  | [], _, st => (st, [])
  | (info, discoverNode) :: rest, i, st =>
    match g.activateNodeRecord st
        { PublicKey := info.publicKey, Role := g.GetStaticRoleFromString discoverNode.Role }
        ("discoverynoderecord_" ++ toString i) nodeRecordProto with
    | (st1, Except.error err) => (st1, [("discoverynoderecord_" ++ toString i, Except.error err)])
    | (st1, Except.ok contract) =>
      ((g.activations nodeRecordProto rest (i + 1) st1).1,
        ("discoverynoderecord_" ++ toString i, Except.ok contract) ::
          (g.activations nodeRecordProto rest (i + 1) st1).2)

end genesis

namespace Conveyor

/-! ## Lemmas on the signal passes -/

/-- The Working signal pass skips a batch of non-signal items. -/
theorem scanSignalsWorking_nonSignals (elements : List OutputElement) (acc : WorkingScan)
    (h : ∀ el ∈ elements, el.GetItemType = 0) :
    scanSignalsWorking elements acc = Result.ret acc := by
  induction elements with
  | nil => rfl
  | cons el rest ih =>
    have hel : el.itemType = 0 := h el (List.mem_cons_self el rest)
    have hrest : ∀ e ∈ rest, e.GetItemType = 0 := fun e he => h e (List.mem_cons_of_mem el he)
    simp [scanSignalsWorking, OutputElement.IsSignal, hel, ih hrest]

/-- The Suspending signal loop skips a batch of non-signal items. -/
theorem processSignalsSuspendingLoop_nonSignals (elements : List OutputElement) (s : Slot)
    (n : Nat) (h : ∀ el ∈ elements, el.GetItemType = 0) :
    processSignalsSuspendingLoop elements s n = (s, Result.ret n) := by
  induction elements with
  | nil => rfl
  | cons el rest ih =>
    have hel : el.itemType = 0 := h el (List.mem_cons_self el rest)
    have hrest : ∀ e ∈ rest, e.GetItemType = 0 := fun e he => h e (List.mem_cons_of_mem el he)
    simp [processSignalsSuspendingLoop, OutputElement.IsSignal, hel, ih hrest]

/-- On a batch whose signals are all known, the Suspending signal loop never
panics: it counts the signals, and it takes a worker in the `Suspending`
state to `Suspended` exactly when the batch holds an `ActivatePulseSignal`;
any other worker state is left as it is. -/
theorem processSignalsSuspendingLoop_known (elements : List OutputElement) (s : Slot) (n : Nat)
    (h : ∀ el ∈ elements, el.GetItemType = 0 ∨ el.GetItemType = PendingPulseSignal ∨
      el.GetItemType = ActivatePulseSignal) :
    processSignalsSuspendingLoop elements s n =
      ({ s with slotState :=
          if elements.any (fun el => el.GetItemType == ActivatePulseSignal) = true ∧
              s.slotState = SlotState.Suspending
          then SlotState.Suspended else s.slotState },
        Result.ret (n + (elements.filter OutputElement.IsSignal).length)) := by
  induction elements generalizing s n with
  | nil => simp [processSignalsSuspendingLoop]
  | cons el rest ih =>
    have hrest : ∀ e ∈ rest, e.GetItemType = 0 ∨ e.GetItemType = PendingPulseSignal ∨
        e.GetItemType = ActivatePulseSignal :=
      fun e he => h e (List.mem_cons_of_mem el he)
    rcases h el (List.mem_cons_self el rest) with h0 | h1 | h2
    · have h0' : el.itemType = 0 := h0
      simp [processSignalsSuspendingLoop, OutputElement.IsSignal, OutputElement.GetItemType,
        ActivatePulseSignal, h0', ih s n hrest]
    · have h1' : el.itemType = 1 := h1
      simp [processSignalsSuspendingLoop, OutputElement.IsSignal, OutputElement.GetItemType,
        ActivatePulseSignal, PendingPulseSignal, h1', ih s (n + 1) hrest]
      omega
    · have h2' : el.itemType = 2 := h2
      by_cases hs : s.slotState = SlotState.Suspending
      · simp [processSignalsSuspendingLoop, OutputElement.IsSignal, OutputElement.GetItemType,
          ActivatePulseSignal, PendingPulseSignal, h2', hs,
          ih { s with slotState := SlotState.Suspended } (n + 1) hrest]
        omega
      · simp [processSignalsSuspendingLoop, OutputElement.IsSignal, OutputElement.GetItemType,
          ActivatePulseSignal, PendingPulseSignal, h2', hs, ih s (n + 1) hrest]
        omega

/-- Once a slot is in the Past phase, any number of further calls of
`changePulseState` returns normally and leaves it there. -/
theorem changePulseStateTimes_past (n : Nat) (s : Slot) :
    changePulseStateTimes n { s with pulseState := Past } =
      ({ s with pulseState := Past }, Result.ret ()) := by
  induction n with
  | zero => rfl
  | succ k ih =>
    have hstep : changePulseState { s with pulseState := Past } =
        ({ s with pulseState := Past }, Result.ret ()) := by
      simp [changePulseState, Future, Present, Past]
    simp only [changePulseStateTimes, hstep]
    exact ih

/-! ## Signal processing in Working mode -/

/-- C1: for every slot (so for every pulse phase), `processSignalsWorking` on
the batch `[PendingPulseSignal, ActivatePulseSignal]` returns 2, sets
`slotState` to `Suspending` and pushes the activate signal back onto the input
queue; on a freshly made slot the input queue then drains to exactly one item,
whose item type is `ActivatePulseSignal`. -/
theorem processSignalsWorking_pending_and_activate (s : Slot) (pulseState : PulseState)
    (pulseNumber : Nat) (d1 d2 : Payload) :
    processSignalsWorking s
        [NewOutputElement d1 PendingPulseSignal, NewOutputElement d2 ActivatePulseSignal] =
      ({ s with
          slotState := SlotState.Suspending,
          inputQueue :=
            { items := s.inputQueue.items ++ [NewOutputElement d2 ActivatePulseSignal] } },
        Result.ret 2) ∧
    (processSignalsWorking (NewSlot pulseState pulseNumber)
        [NewOutputElement d1 PendingPulseSignal,
          NewOutputElement d2 ActivatePulseSignal]).2 = Result.ret 2 ∧
    (processSignalsWorking (NewSlot pulseState pulseNumber)
        [NewOutputElement d1 PendingPulseSignal,
          NewOutputElement d2 ActivatePulseSignal]).1.slotState = SlotState.Suspending ∧
    (processSignalsWorking (NewSlot pulseState pulseNumber)
        [NewOutputElement d1 PendingPulseSignal,
          NewOutputElement d2 ActivatePulseSignal]).1.inputQueue.RemoveAll.1.length = 1 ∧
    ((processSignalsWorking (NewSlot pulseState pulseNumber)
        [NewOutputElement d1 PendingPulseSignal,
          NewOutputElement d2 ActivatePulseSignal]).1.inputQueue.RemoveAll.1.map
        OutputElement.GetItemType) = [ActivatePulseSignal] :=
  ⟨rfl, rfl, rfl, rfl, rfl⟩

/-- C2: for every slot (so for every pulse phase), `processSignalsWorking` on a
batch holding a single `PendingPulseSignal` returns 1 and moves `slotState` to
`Suspending`, changing nothing else. -/
theorem processSignalsWorking_pending (s : Slot) (d : Payload) :
    processSignalsWorking s [NewOutputElement d PendingPulseSignal] =
      ({ s with slotState := SlotState.Suspending }, Result.ret 1) :=
  rfl

/-! ## Signal processing in Suspending mode -/

/-- C4: when a worker in the `Suspending` state processes a drained batch
whose signals are all known and which holds an `ActivatePulseSignal`, it does
not panic, returns the number of signals of the batch, and its worker state
becomes `Suspended`. -/
theorem processSignalsSuspending_activate_suspended (s : Slot)
    (elements : List OutputElement)
    (hknown : ∀ el ∈ elements, el.GetItemType = 0 ∨ el.GetItemType = PendingPulseSignal ∨
      el.GetItemType = ActivatePulseSignal)
    (hact : ∃ el ∈ elements, el.GetItemType = ActivatePulseSignal) :
    processSignalsSuspending { s with slotState := SlotState.Suspending } elements =
      ({ s with slotState := SlotState.Suspended },
        Result.ret (elements.filter OutputElement.IsSignal).length) ∧
    (processSignalsSuspending { s with slotState := SlotState.Suspending }
        elements).1.slotState = SlotState.Suspended := by
  have hany : elements.any (fun el => el.GetItemType == ActivatePulseSignal) = true := by
    obtain ⟨el, hel, het⟩ := hact
    exact List.any_eq_true.mpr ⟨el, hel, by simp [het]⟩
  have hloop := processSignalsSuspendingLoop_known elements
    { s with slotState := SlotState.Suspending } 0 hknown
  simp only [hany, true_and, if_true, Nat.zero_add] at hloop
  have h : processSignalsSuspending { s with slotState := SlotState.Suspending } elements =
      ({ s with slotState := SlotState.Suspended },
        Result.ret (elements.filter OutputElement.IsSignal).length) := hloop
  exact ⟨h, by rw [h]⟩

/-- Witness for C4: the signals of specification scenario S2 (two pending
signals, then the activate signal) on a Present slot in the `Suspending`
state; the worker state becomes `Suspended`. -/
theorem processSignalsSuspending_activate_suspended_witness :
    processSignalsSuspending { NewSlot Present 22 with slotState := SlotState.Suspending }
        [NewOutputElement (Payload.callback 0) PendingPulseSignal,
          NewOutputElement (Payload.callback 1) PendingPulseSignal,
          NewOutputElement (Payload.callback 2) ActivatePulseSignal] =
      ({ NewSlot Present 22 with slotState := SlotState.Suspended }, Result.ret 3) :=
  (processSignalsSuspending_activate_suspended (NewSlot Present 22)
    [NewOutputElement (Payload.callback 0) PendingPulseSignal,
      NewOutputElement (Payload.callback 1) PendingPulseSignal,
      NewOutputElement (Payload.callback 2) ActivatePulseSignal]
    (by decide) (by decide)).1

/-! ## Unknown signals -/

/-- C5: for every slot (so for every pulse phase), every payload and every
signal code other than 0, `PendingPulseSignal` and `ActivatePulseSignal`,
`processSignalsWorking` and `processSignalsSuspending` on the batch holding
that one signal panic with the value `[ <function> ] Unknown signal: <code>`,
the code in decimal, and leave the slot as it was (in particular the four
fields `areSlotStatesEqual` compares). -/
theorem processSignals_unknown_signal (s : Slot) (d : Payload) (code : Nat) (h0 : code ≠ 0)
    (hp : code ≠ PendingPulseSignal) (ha : code ≠ ActivatePulseSignal) :
    processSignalsWorking s [NewOutputElement d code] =
      (s, Result.panic ("[ processSignalsWorking ] Unknown signal: " ++ toString code)) ∧
    processSignalsSuspending s [NewOutputElement d code] =
      (s, Result.panic ("[ processSignalsSuspending ] Unknown signal: " ++ toString code)) ∧
    areSlotStatesEqual s (processSignalsWorking s [NewOutputElement d code]).1 ∧
    areSlotStatesEqual s (processSignalsSuspending s [NewOutputElement d code]).1 := by
  have hw : processSignalsWorking s [NewOutputElement d code] =
      (s, Result.panic ("[ processSignalsWorking ] Unknown signal: " ++ toString code)) := by
    simp [processSignalsWorking, scanSignalsWorking, OutputElement.IsSignal,
      OutputElement.GetItemType, NewOutputElement, h0, hp, ha]
  have hsus : processSignalsSuspending s [NewOutputElement d code] =
      (s, Result.panic ("[ processSignalsSuspending ] Unknown signal: " ++ toString code)) := by
    simp [processSignalsSuspending, processSignalsSuspendingLoop, OutputElement.IsSignal,
      OutputElement.GetItemType, NewOutputElement, h0, hp, ha]
  refine ⟨hw, hsus, ?_, ?_⟩
  · rw [hw]; exact ⟨rfl, rfl, rfl, rfl⟩
  · rw [hsus]; exact ⟨rfl, rfl, rfl, rfl⟩

/-- Witness for C5: signal code 9999999 on a fresh Present slot, as in
`Test_processSignalsWorking_BadSignal` and
`Test_processSignalsSuspending_BadSignal`; the panic values are the literal
strings the tests require. -/
theorem processSignals_unknown_signal_witness :
    processSignalsWorking (NewSlot Present 22) [NewOutputElement (Payload.int 1) 9999999] =
      (NewSlot Present 22, Result.panic "[ processSignalsWorking ] Unknown signal: 9999999") ∧
    processSignalsSuspending (NewSlot Present 22) [NewOutputElement (Payload.int 1) 9999999] =
      (NewSlot Present 22,
        Result.panic "[ processSignalsSuspending ] Unknown signal: 9999999") :=
  have h := processSignals_unknown_signal (NewSlot Present 22) (Payload.int 1) 9999999
    (by decide) (by decide) (by decide)
  ⟨h.1.trans (by decide), h.2.1.trans (by decide)⟩

/-! ## Batches without a transition -/

/-- C6: for every slot (so for every pulse phase), `processSignalsWorking` and
`processSignalsSuspending` on the empty batch return 0 and leave the slot as
it was. -/
theorem processSignals_empty (s : Slot) :
    processSignalsWorking s [] = (s, Result.ret 0) ∧
    processSignalsSuspending s [] = (s, Result.ret 0) ∧
    areSlotStatesEqual s (processSignalsWorking s []).1 ∧
    areSlotStatesEqual s (processSignalsSuspending s []).1 :=
  ⟨rfl, rfl, ⟨rfl, rfl, rfl, rfl⟩, ⟨rfl, rfl, rfl, rfl⟩⟩

/-- C7: for every slot (so for every pulse phase) and every batch all of whose
items have item type 0, whatever its length and payloads,
`processSignalsWorking` and `processSignalsSuspending` return 0 and leave the
slot as it was. -/
theorem processSignals_nonSignals (s : Slot) (elements : List OutputElement)
    (h : ∀ el ∈ elements, el.GetItemType = 0) :
    processSignalsWorking s elements = (s, Result.ret 0) ∧
    processSignalsSuspending s elements = (s, Result.ret 0) ∧
    areSlotStatesEqual s (processSignalsWorking s elements).1 ∧
    areSlotStatesEqual s (processSignalsSuspending s elements).1 := by
  have hw : processSignalsWorking s elements = (s, Result.ret 0) := by
    simp [processSignalsWorking, scanSignalsWorking_nonSignals elements _ h]
  have hsus : processSignalsSuspending s elements = (s, Result.ret 0) :=
    processSignalsSuspendingLoop_nonSignals elements s 0 h
  refine ⟨hw, hsus, ?_, ?_⟩
  · rw [hw]; exact ⟨rfl, rfl, rfl, rfl⟩
  · rw [hsus]; exact ⟨rfl, rfl, rfl, rfl⟩

/-- Witness for C7: the three non-signal items of
`Test_processSignalsWorking_NonSignals` on a fresh Past slot. -/
theorem processSignals_nonSignals_witness :
    processSignalsWorking (NewSlot Past 22)
        [NewOutputElement (Payload.int 1) 0, NewOutputElement (Payload.int 2) 0,
          NewOutputElement (Payload.int 3) 0] = (NewSlot Past 22, Result.ret 0) ∧
    processSignalsSuspending (NewSlot Past 22)
        [NewOutputElement (Payload.int 1) 0, NewOutputElement (Payload.int 2) 0,
          NewOutputElement (Payload.int 3) 0] = (NewSlot Past 22, Result.ret 0) :=
  have h := processSignals_nonSignals (NewSlot Past 22)
    [NewOutputElement (Payload.int 1) 0, NewOutputElement (Payload.int 2) 0,
      NewOutputElement (Payload.int 3) 0] (by decide)
  ⟨h.1, h.2.1⟩

/-- C8: a lone known signal that triggers no transition in the current mode is
counted and changes nothing.  For every slot (so for every pulse phase),
`processSignalsWorking` on a batch holding only an `ActivatePulseSignal` and
`processSignalsSuspending` on a batch holding only a `PendingPulseSignal`
return 1 and leave the slot as it was; `readInputQueueWorking` with only an
`ActivatePulseSignal` queued and `readInputQueueSuspending` with only a
`PendingPulseSignal` queued return no error, drain the queue and leave
`pulseState`, `stateMachine`, `pulse` and `slotState` as they were. -/
theorem lone_signal_without_transition (s : Slot) (d : Payload) :
    processSignalsWorking s [NewOutputElement d ActivatePulseSignal] = (s, Result.ret 1) ∧
    processSignalsSuspending s [NewOutputElement d PendingPulseSignal] = (s, Result.ret 1) ∧
    readInputQueueWorking
        { s with inputQueue := Queue.PushSignal { items := [] } ActivatePulseSignal d } =
      ({ s with inputQueue := { items := [] } }, Result.ret none) ∧
    readInputQueueSuspending
        { s with inputQueue := Queue.PushSignal { items := [] } PendingPulseSignal d } =
      ({ s with inputQueue := { items := [] } }, Result.ret none) ∧
    areSlotStatesEqual s (readInputQueueWorking
        { s with inputQueue := Queue.PushSignal { items := [] } ActivatePulseSignal d }).1 ∧
    areSlotStatesEqual s (readInputQueueSuspending
        { s with inputQueue := Queue.PushSignal { items := [] } PendingPulseSignal d }).1 := by
  have hw : readInputQueueWorking
        { s with inputQueue := Queue.PushSignal { items := [] } ActivatePulseSignal d } =
      ({ s with inputQueue := { items := [] } }, Result.ret none) := by
    simp [readInputQueueWorking, Queue.RemoveAll, Queue.PushSignal, processSignalsWorking,
      scanSignalsWorking, admitEvents, OutputElement.IsSignal, OutputElement.GetItemType,
      NewOutputElement, ActivatePulseSignal, PendingPulseSignal]
  have hsus : readInputQueueSuspending
        { s with inputQueue := Queue.PushSignal { items := [] } PendingPulseSignal d } =
      ({ s with inputQueue := { items := [] } }, Result.ret none) := by
    simp [readInputQueueSuspending, Queue.RemoveAll, Queue.PushSignal,
      processSignalsSuspending, processSignalsSuspendingLoop, admitEvents,
      OutputElement.IsSignal, OutputElement.GetItemType, NewOutputElement,
      ActivatePulseSignal, PendingPulseSignal]
  refine ⟨rfl, rfl, hw, hsus, ?_, ?_⟩
  · rw [hw]; exact ⟨rfl, rfl, rfl, rfl⟩
  · rw [hsus]; exact ⟨rfl, rfl, rfl, rfl⟩

/-! ## Pulse-phase rotation -/

/-- C9: `changePulseState` advances the phase one step along Future, Present,
Past and is a fixed point at Past: on a Future slot it yields Present, on a
Present slot Past, on a Past slot Past, each time returning normally and
changing nothing else; hence `n + 2` successive calls starting from Future
finish in Past without a panic. -/
theorem changePulseState_advances (s : Slot) (n : Nat) :
    changePulseState { s with pulseState := Future } =
      ({ s with pulseState := Present }, Result.ret ()) ∧
    changePulseState { s with pulseState := Present } =
      ({ s with pulseState := Past }, Result.ret ()) ∧
    changePulseState { s with pulseState := Past } =
      ({ s with pulseState := Past }, Result.ret ()) ∧
    changePulseStateTimes (n + 2) { s with pulseState := Future } =
      ({ s with pulseState := Past }, Result.ret ()) := by
  have hF : changePulseState { s with pulseState := Future } =
      ({ s with pulseState := Present }, Result.ret ()) := by
    simp [changePulseState, Future, Present, Past]
  have hPr : changePulseState { s with pulseState := Present } =
      ({ s with pulseState := Past }, Result.ret ()) := by
    simp [changePulseState, Future, Present, Past]
  have hPa : changePulseState { s with pulseState := Past } =
      ({ s with pulseState := Past }, Result.ret ()) := by
    simp [changePulseState, Future, Present, Past]
  refine ⟨hF, hPr, hPa, ?_⟩
  simp only [changePulseStateTimes, hF, hPr]
  exact changePulseStateTimes_past n s

/-- C10: for every phase value `v` that is none of Future, Present, Past,
`changePulseState` panics with the value
`[ changePulseState ] Unknown state: PulseState(<v>)`, the value in decimal,
and leaves the slot, its phase included, as it was. -/
theorem changePulseState_unknown (s : Slot) (v : PulseState) (hF : v ≠ Future)
    (hPr : v ≠ Present) (hPa : v ≠ Past) :
    changePulseState { s with pulseState := v } =
      ({ s with pulseState := v },
        Result.panic ("[ changePulseState ] Unknown state: PulseState(" ++ toString v ++ ")")) ∧
    (changePulseState { s with pulseState := v }).1.pulseState = v := by
  have h : changePulseState { s with pulseState := v } =
      ({ s with pulseState := v },
        Result.panic
          ("[ changePulseState ] Unknown state: PulseState(" ++ toString v ++ ")")) := by
    have hmsg : "[ changePulseState ] Unknown state: " ++ ("PulseState(" ++ toString v ++ ")") =
        "[ changePulseState ] Unknown state: PulseState(" ++ toString v ++ ")" := by
      rw [← String.append_assoc, ← String.append_assoc]
      rfl
    simp [changePulseState, PulseState.String, hF, hPr, hPa, hmsg]
  exact ⟨h, by rw [h]⟩

/-- Witness for C10: the value 99999 of `Test_changePulseState` on a slot made
with phase Future; the panic value is the literal string the test requires. -/
theorem changePulseState_unknown_witness :
    changePulseState { NewSlot Future 22 with pulseState := 99999 } =
      ({ NewSlot Future 22 with pulseState := 99999 },
        Result.panic "[ changePulseState ] Unknown state: PulseState(99999)") :=
  (changePulseState_unknown (NewSlot Future 22) 99999 (by decide) (by decide)
    (by decide)).1.trans (by decide)

/-! ## Event admission -/

/-- Admitting a run of events appends one new element per event to the Active
list, in order, and touches nothing else but the identifier counter. -/
theorem foldl_admitEvent_events (payloads : List Payload) (s : Slot) :
    (payloads.map (fun p => NewOutputElement p 0)).foldl admitEvent s =
      { s with
          activeElements := s.activeElements ++ newElements s.nextElementID payloads,
          nextElementID := s.nextElementID + payloads.length } := by
  induction payloads generalizing s with
  | nil => simp [newElements]
  | cons p rest ih =>
    have hstep : admitEvent s (NewOutputElement p 0) =
        { s with
            activeElements := s.activeElements ++
              [{ id := s.nextElementID, machineType := 1, state := 1, payload := p }],
            nextElementID := s.nextElementID + 1 } := rfl
    simp only [List.map_cons, List.foldl_cons, hstep, ih, newElements,
      List.length_cons, List.append_assoc, List.singleton_append]
    congr 1
    omega

/-- The payloads of freshly made elements are the payloads of their events. -/
theorem newElements_payloads (payloads : List Payload) (start : Nat) :
    (newElements start payloads).map SlotElement.payload = payloads := by
  induction payloads generalizing start with
  | nil => rfl
  | cons p rest ih => simp [newElements, ih]

/-- One element is made per event. -/
theorem newElements_length (payloads : List Payload) (start : Nat) :
    (newElements start payloads).length = payloads.length := by
  induction payloads generalizing start with
  | nil => rfl
  | cons p rest ih => simp [newElements, ih]

/-- Popping as many Active elements as the Active list holds returns their
payloads from the head on. -/
theorem popActivePayloads_all (s : Slot) :
    popActivePayloads s.activeElements.length s =
      s.activeElements.map (fun el => some el.payload) := by
  generalize hl : s.activeElements = l
  induction l generalizing s with
  | nil => rfl
  | cons el rest ih =>
    have hpop : popElement s ActivationStatus.ActiveElement =
        ({ s with activeElements := rest }, some el) := by
      simp [popElement, hl]
    simp only [List.length_cons, popActivePayloads, hpop, List.map_cons, Option.map_some']
    rw [ih { s with activeElements := rest } rfl]

/-- The events of a pushed batch are exactly its payload items. -/
theorem pushedItems_events (signalType : Nat) (hsig : signalType ≠ 0) (signal : Option Payload)
    (payloads : List Payload) :
    (pushedItems signalType signal payloads).filter (fun el => !el.IsSignal) =
      payloads.map (fun p => NewOutputElement p 0) := by
  have hev : (payloads.map (fun p => NewOutputElement p 0)).filter (fun el => !el.IsSignal) =
      payloads.map (fun p => NewOutputElement p 0) := by
    apply List.filter_eq_self.mpr
    intro el hel
    obtain ⟨p, _, rfl⟩ := List.mem_map.mp hel
    simp [OutputElement.IsSignal, NewOutputElement]
  cases signal with
  | none => simpa [pushedItems] using hev
  | some cb =>
    simp only [pushedItems, List.filter_append, hev]
    simp [OutputElement.IsSignal, NewOutputElement, hsig]

/-- The payload items of a pushed batch are non-signals. -/
theorem eventItems_nonSignals (payloads : List Payload) :
    ∀ el ∈ payloads.map (fun p => NewOutputElement p 0), el.GetItemType = 0 := by
  intro el hel
  obtain ⟨p, _, rfl⟩ := List.mem_map.mp hel
  rfl

/-- Every event of a pushed batch becomes one new Active element, in push
order; the signal of the batch makes none. -/
theorem admitEvents_pushedItems (s : Slot) (signalType : Nat) (hsig : signalType ≠ 0)
    (signal : Option Payload) (payloads : List Payload) :
    admitEvents s (pushedItems signalType signal payloads) =
      { s with
          activeElements := s.activeElements ++ newElements s.nextElementID payloads,
          nextElementID := s.nextElementID + payloads.length } := by
  simp only [admitEvents, pushedItems_events signalType hsig, foldl_admitEvent_events payloads s]

/-- In Working mode a pushed batch made of an optional `ActivatePulseSignal`
and events changes nothing in the signal pass, which counts the signal. -/
theorem processSignalsWorking_pushedItems_activate (s : Slot) (signal : Option Payload)
    (payloads : List Payload) :
    processSignalsWorking s (pushedItems ActivatePulseSignal signal payloads) =
      (s, Result.ret (if signal.isSome then 1 else 0)) := by
  cases signal with
  | none =>
    simp [processSignalsWorking, pushedItems,
      scanSignalsWorking_nonSignals _ _ (eventItems_nonSignals payloads)]
  | some cb =>
    have hrest := fun acc =>
      scanSignalsWorking_nonSignals _ acc (eventItems_nonSignals payloads)
    simp only [NewOutputElement] at hrest
    simp [processSignalsWorking, pushedItems, scanSignalsWorking, OutputElement.IsSignal,
      OutputElement.GetItemType, NewOutputElement, ActivatePulseSignal, PendingPulseSignal,
      hrest]

/-- In Suspending mode a pushed batch made of an optional `PendingPulseSignal`
and events changes nothing in the signal pass, which counts the signal. -/
theorem processSignalsSuspending_pushedItems_pending (s : Slot) (signal : Option Payload)
    (payloads : List Payload) :
    processSignalsSuspending s (pushedItems PendingPulseSignal signal payloads) =
      (s, Result.ret (if signal.isSome then 1 else 0)) := by
  cases signal with
  | none =>
    simp [processSignalsSuspending, pushedItems,
      processSignalsSuspendingLoop_nonSignals _ _ _ (eventItems_nonSignals payloads)]
  | some cb =>
    have hrest := fun t n =>
      processSignalsSuspendingLoop_nonSignals _ t n (eventItems_nonSignals payloads)
    simp only [NewOutputElement] at hrest
    simp [processSignalsSuspending, pushedItems, processSignalsSuspendingLoop,
      OutputElement.IsSignal, OutputElement.GetItemType, NewOutputElement,
      ActivatePulseSignal, PendingPulseSignal, hrest]

/-- In Suspending mode a pushed batch made of an optional
`ActivatePulseSignal` and events never panics in the signal pass; the signal
takes a worker in the `Suspending` state to `Suspended` and changes no other
worker state. -/
theorem processSignalsSuspending_pushedItems_activate (s : Slot) (signal : Option Payload)
    (payloads : List Payload) :
    processSignalsSuspending s (pushedItems ActivatePulseSignal signal payloads) =
      ({ s with slotState :=
          if signal.isSome = true ∧ s.slotState = SlotState.Suspending
          then SlotState.Suspended else s.slotState },
        Result.ret (if signal.isSome then 1 else 0)) := by
  cases signal with
  | none =>
    simp [processSignalsSuspending, pushedItems,
      processSignalsSuspendingLoop_nonSignals _ _ _ (eventItems_nonSignals payloads)]
  | some cb =>
    have hrest := fun t n =>
      processSignalsSuspendingLoop_nonSignals _ t n (eventItems_nonSignals payloads)
    simp only [NewOutputElement] at hrest
    by_cases hs : s.slotState = SlotState.Suspending
    · simp [processSignalsSuspending, pushedItems, processSignalsSuspendingLoop,
        OutputElement.IsSignal, OutputElement.GetItemType, NewOutputElement,
        ActivatePulseSignal, PendingPulseSignal, hrest, hs]
    · simp [processSignalsSuspending, pushedItems, processSignalsSuspendingLoop,
        OutputElement.IsSignal, OutputElement.GetItemType, NewOutputElement,
        ActivatePulseSignal, PendingPulseSignal, hrest, hs]

/-- C11: for every pulse phase (and every worker state) and every sequence of
event payloads pushed into a fresh slot's input queue, optionally preceded by
an `ActivatePulseSignal`, `readInputQueueWorking` returns no error, leaves
`pulseState`, `pulse`, `stateMachine` and `slotState` unchanged, and creates
exactly one Active element per event, so that as many successive
`popElement(ActiveElement)` calls return the pushed payloads in push order. -/
theorem readInputQueueWorking_admits_events (pulseState : PulseState) (pulseNumber : Nat)
    (slotState : SlotState) (signal : Option Payload) (payloads : List Payload) :
    readInputQueueWorking (slotWithInput pulseState pulseNumber slotState
        (pushedItems ActivatePulseSignal signal payloads)) =
      ({ NewSlot pulseState pulseNumber with
          slotState := slotState,
          activeElements := newElements 0 payloads,
          nextElementID := payloads.length }, Result.ret none) ∧
    areSlotStatesEqual
      (slotWithInput pulseState pulseNumber slotState
        (pushedItems ActivatePulseSignal signal payloads))
      (readInputQueueWorking (slotWithInput pulseState pulseNumber slotState
        (pushedItems ActivatePulseSignal signal payloads))).1 ∧
    (readInputQueueWorking (slotWithInput pulseState pulseNumber slotState
        (pushedItems ActivatePulseSignal signal payloads))).1.activeElements.length =
      payloads.length ∧
    popActivePayloads payloads.length
        (readInputQueueWorking (slotWithInput pulseState pulseNumber slotState
          (pushedItems ActivatePulseSignal signal payloads))).1 =
      payloads.map some := by
  have h : readInputQueueWorking (slotWithInput pulseState pulseNumber slotState
        (pushedItems ActivatePulseSignal signal payloads)) =
      ({ NewSlot pulseState pulseNumber with
          slotState := slotState,
          activeElements := newElements 0 payloads,
          nextElementID := payloads.length }, Result.ret none) := by
    simp only [readInputQueueWorking, slotWithInput, Queue.RemoveAll,
      processSignalsWorking_pushedItems_activate,
      admitEvents_pushedItems _ ActivatePulseSignal (by decide) signal payloads]
    simp [NewSlot]
  rw [h]
  refine ⟨rfl, ⟨rfl, rfl, rfl, rfl⟩, newElements_length payloads 0, ?_⟩
  have hpop := popActivePayloads_all
    { NewSlot pulseState pulseNumber with
        slotState := slotState,
        activeElements := newElements 0 payloads,
        nextElementID := payloads.length }
  simp only [newElements_length] at hpop
  rw [hpop, ← newElements_payloads payloads 0, List.map_map, newElements_payloads]
  rfl

/-! ## Event admission in Suspending mode -/

/-- C12: for a slot in the Past phase, whatever its worker state, whenever the
input queue holds at least one event (with or without an
`ActivatePulseSignal` ahead of the events), `readInputQueueSuspending` returns
no error, admits every event as an Active element with its payload in push
order, and leaves `slotState` equal to `Working`. -/
theorem readInputQueueSuspending_past_admits_events (pulseNumber : Nat)
    (slotState : SlotState) (signal : Option Payload) (payloads : List Payload)
    (hne : payloads ≠ []) :
    readInputQueueSuspending (slotWithInput Past pulseNumber slotState
        (pushedItems ActivatePulseSignal signal payloads)) =
      ({ NewSlot Past pulseNumber with
          slotState := SlotState.Working,
          activeElements := newElements 0 payloads,
          nextElementID := payloads.length }, Result.ret none) ∧
    (readInputQueueSuspending (slotWithInput Past pulseNumber slotState
        (pushedItems ActivatePulseSignal signal payloads))).1.slotState = SlotState.Working ∧
    (readInputQueueSuspending (slotWithInput Past pulseNumber slotState
        (pushedItems ActivatePulseSignal signal payloads))).1.activeElements.length =
      payloads.length ∧
    popActivePayloads payloads.length
        (readInputQueueSuspending (slotWithInput Past pulseNumber slotState
          (pushedItems ActivatePulseSignal signal payloads))).1 =
      payloads.map some := by
  have h : readInputQueueSuspending (slotWithInput Past pulseNumber slotState
        (pushedItems ActivatePulseSignal signal payloads)) =
      ({ NewSlot Past pulseNumber with
          slotState := SlotState.Working,
          activeElements := newElements 0 payloads,
          nextElementID := payloads.length }, Result.ret none) := by
    simp only [readInputQueueSuspending, slotWithInput, Queue.RemoveAll,
      processSignalsSuspending_pushedItems_activate,
      pushedItems_events ActivatePulseSignal (by decide),
      admitEvents_pushedItems _ ActivatePulseSignal (by decide) signal payloads]
    simp [NewSlot, hne]
  rw [h]
  refine ⟨rfl, rfl, newElements_length payloads 0, ?_⟩
  have hpop := popActivePayloads_all
    { NewSlot Past pulseNumber with
        slotState := SlotState.Working,
        activeElements := newElements 0 payloads,
        nextElementID := payloads.length }
  simp only [newElements_length] at hpop
  rw [hpop, ← newElements_payloads payloads 0, List.map_map, newElements_payloads]
  rfl

/-- Witness for C12: the input of
`Test_readInputQueueSuspending_SignalsAndEvents_Past`, an `ActivatePulseSignal`
followed by the events 0 to 19 on a fresh Past slot: the worker state is
`Working` afterwards and the twenty pops return 0 to 19 in order. -/
theorem readInputQueueSuspending_past_admits_events_witness :
    (readInputQueueSuspending (slotWithInput Past 22 SlotState.Initializing
        (pushedItems ActivatePulseSignal (some (Payload.callback 0))
          ((List.range 20).map (fun i => Payload.int i))))).1.slotState = SlotState.Working ∧
    popActivePayloads ((List.range 20).map (fun i => Payload.int i)).length
        (readInputQueueSuspending (slotWithInput Past 22 SlotState.Initializing
          (pushedItems ActivatePulseSignal (some (Payload.callback 0))
            ((List.range 20).map (fun i => Payload.int i))))).1 =
      ((List.range 20).map (fun i => Payload.int i)).map some :=
  have h := readInputQueueSuspending_past_admits_events 22 SlotState.Initializing
    (some (Payload.callback 0)) ((List.range 20).map (fun i => Payload.int i)) (by decide)
  ⟨h.2.1, h.2.2.2⟩

/-- C13: for a slot in the Future or Present phase, whatever its worker state,
`readInputQueueSuspending` with events queued (optionally preceded by a
`PendingPulseSignal`) returns no error and does not re-activate the worker:
`pulseState`, `pulse`, `stateMachine` and `slotState` are unchanged; the queued
events are held as elements that successive `popElement(ActiveElement)` calls
return with their payloads in push order. -/
theorem readInputQueueSuspending_holds_events (pulseState : PulseState) (pulseNumber : Nat)
    (slotState : SlotState) (signal : Option Payload) (payloads : List Payload)
    (hphase : pulseState = Future ∨ pulseState = Present) :
    readInputQueueSuspending (slotWithInput pulseState pulseNumber slotState
        (pushedItems PendingPulseSignal signal payloads)) =
      ({ NewSlot pulseState pulseNumber with
          slotState := slotState,
          activeElements := newElements 0 payloads,
          nextElementID := payloads.length }, Result.ret none) ∧
    areSlotStatesEqual
      (slotWithInput pulseState pulseNumber slotState
        (pushedItems PendingPulseSignal signal payloads))
      (readInputQueueSuspending (slotWithInput pulseState pulseNumber slotState
        (pushedItems PendingPulseSignal signal payloads))).1 ∧
    popActivePayloads payloads.length
        (readInputQueueSuspending (slotWithInput pulseState pulseNumber slotState
          (pushedItems PendingPulseSignal signal payloads))).1 =
      payloads.map some := by
  have hnp : pulseState ≠ Past := by
    rcases hphase with h | h <;> rw [h] <;> decide
  have h : readInputQueueSuspending (slotWithInput pulseState pulseNumber slotState
        (pushedItems PendingPulseSignal signal payloads)) =
      ({ NewSlot pulseState pulseNumber with
          slotState := slotState,
          activeElements := newElements 0 payloads,
          nextElementID := payloads.length }, Result.ret none) := by
    simp only [readInputQueueSuspending, slotWithInput, Queue.RemoveAll,
      processSignalsSuspending_pushedItems_pending,
      pushedItems_events PendingPulseSignal (by decide),
      admitEvents_pushedItems _ PendingPulseSignal (by decide) signal payloads]
    simp [NewSlot, hnp]
  rw [h]
  refine ⟨rfl, ⟨rfl, rfl, rfl, rfl⟩, ?_⟩
  have hpop := popActivePayloads_all
    { NewSlot pulseState pulseNumber with
        slotState := slotState,
        activeElements := newElements 0 payloads,
        nextElementID := payloads.length }
  simp only [newElements_length] at hpop
  rw [hpop, ← newElements_payloads payloads 0, List.map_map, newElements_payloads]
  rfl

/-- Witness for C13: the input of
`Test_readInputQueueSuspending_SignalsAndEvents`, a `PendingPulseSignal`
followed by the events 0 to 19 on a fresh Present slot: the twenty pops return
0 to 19 in order. -/
theorem readInputQueueSuspending_holds_events_witness :
    popActivePayloads ((List.range 20).map (fun i => Payload.int i)).length
        (readInputQueueSuspending (slotWithInput Present 22 SlotState.Initializing
          (pushedItems PendingPulseSignal (some (Payload.callback 0))
            ((List.range 20).map (fun i => Payload.int i))))).1 =
      ((List.range 20).map (fun i => Payload.int i)).map some :=
  (readInputQueueSuspending_holds_events Present 22 SlotState.Initializing
    (some (Payload.callback 0)) ((List.range 20).map (fun i => Payload.int i))
    (Or.inr rfl)).2.2

end Conveyor

namespace matrix

/-! ## Construction of the matrix -/

/-- On a factory result of at least three descriptors `NewMatrix` returns the
matrix that the two loops build. -/
theorem NewMatrix_of_three {StateMachine : Type} (emptyObject a b c : StateMachine)
    (rest : List StateMachine) :
    NewMatrix emptyObject (a :: b :: c :: rest) =
      some ((((((({ matrix := fun _ => { stateMachines := [] } } :
        Matrix StateMachine).appendStateMachine 0 emptyObject).appendStateMachine 1
        emptyObject).appendStateMachine 2 emptyObject).appendStateMachine 0 a).appendStateMachine
        1 b).appendStateMachine 2 c) := by
  simp [NewMatrix, pulseStateIndices]

/-- C14: when the factory returns at least three descriptors, `NewMatrix` does
not panic, and in the matrix it returns every one of the three pulse-phase
sets holds exactly 2 machines: index 0 is the empty state machine and index
`TestStateMachine = 1` of phase `i` is the factory's `i`-th descriptor. -/
theorem NewMatrix_shape {StateMachine : Type} (emptyObject : StateMachine)
    (smTestStateMachine : List StateMachine)
    (h : numPulseStates ≤ smTestStateMachine.length) :
    ∃ m, NewMatrix emptyObject smTestStateMachine = some m ∧
      ∀ i : Fin numPulseStates,
        (m.matrix i).stateMachines.length = 2 ∧
        (m.matrix i).GetStateMachineByID 0 = some emptyObject ∧
        (∃ d, smTestStateMachine[i.val]? = some d ∧
          (m.matrix i).GetStateMachineByID TestStateMachine = some d ∧
          (m.matrix i).stateMachines = [emptyObject, d]) := by
  match smTestStateMachine, h with
  | a :: b :: c :: rest, _ =>
    refine ⟨_, NewMatrix_of_three emptyObject a b c rest, ?_⟩
    intro i
    fin_cases i
    · exact ⟨rfl, rfl, a, by simp, rfl, rfl⟩
    · exact ⟨rfl, rfl, b, by simp, rfl, rfl⟩
    · exact ⟨rfl, rfl, c, by simp, rfl, rfl⟩

/-- Witness for C14: a factory returning the three descriptors `"future"`,
`"present"`, `"past"`, the empty state machine being `""`. -/
theorem NewMatrix_shape_witness :
    ∃ m, NewMatrix "" ["future", "present", "past"] = some m ∧
      ∀ i : Fin numPulseStates,
        (m.matrix i).stateMachines.length = 2 ∧
        (m.matrix i).GetStateMachineByID 0 = some "" ∧
        (∃ d, ["future", "present", "past"][i.val]? = some d ∧
          (m.matrix i).GetStateMachineByID TestStateMachine = some d ∧
          (m.matrix i).stateMachines = ["", d]) :=
  NewMatrix_shape "" ["future", "present", "past"] (by decide)

/-- C15: for every matrix built by `NewMatrix`, `GetInitialStateMachine`
returns the machine of type `TestStateMachine = 1` of the Present phase, which
is the second (index 1) descriptor of the factory; the Future and Past
configurations are the sets at positions 0 and 2 and hold the factory's
descriptors 0 and 2. -/
theorem GetInitialStateMachine_present {StateMachine : Type} (emptyObject : StateMachine)
    (smTestStateMachine : List StateMachine) (m : Matrix StateMachine)
    (h : NewMatrix emptyObject smTestStateMachine = some m) :
    m.GetInitialStateMachine = m.GetPresentConfig.GetStateMachineByID TestStateMachine ∧
    m.GetInitialStateMachine = smTestStateMachine[1]? ∧
    m.GetInitialStateMachine.isSome = true ∧
    m.GetFutureConfig.GetStateMachineByID TestStateMachine = smTestStateMachine[0]? ∧
    m.GetPastConfig.GetStateMachineByID TestStateMachine = smTestStateMachine[2]? ∧
    m.GetFutureConfig = m.matrix 0 ∧ m.GetPresentConfig = m.matrix 1 ∧
    m.GetPastConfig = m.matrix 2 := by
  match smTestStateMachine, h with
  | [], h => simp [NewMatrix, pulseStateIndices] at h
  | [_], h => simp [NewMatrix, pulseStateIndices] at h
  | [_, _], h => simp [NewMatrix, pulseStateIndices] at h
  | a :: b :: c :: rest, h =>
    rw [NewMatrix_of_three] at h
    cases h
    exact ⟨rfl, by simp; rfl, rfl, by simp; rfl, by simp; rfl, rfl, rfl, rfl⟩

/-- Witness for C15: the matrix built from the descriptors `"future"`,
`"present"`, `"past"`; its initial state machine is `"present"`. -/
theorem GetInitialStateMachine_present_witness :
    ∃ m, NewMatrix "" ["future", "present", "past"] = some m ∧
      m.GetInitialStateMachine = some "present" ∧
      m.GetFutureConfig.GetStateMachineByID TestStateMachine = some "future" ∧
      m.GetPastConfig.GetStateMachineByID TestStateMachine = some "past" :=
  have h := GetInitialStateMachine_present "" ["future", "present", "past"] _
    (NewMatrix_of_three "" "future" "present" "past" [])
  ⟨_, NewMatrix_of_three "" "future" "present" "past" [], h.2.1, h.2.2.2.1, h.2.2.2.2.1⟩

end matrix

namespace sample

/-! ## Handlers of the sample state machine -/

/-- C16: every Present-phase handler of the sample state machine returns the
next state `Register` declares for it, whatever its arguments:
`initPresentHandler` returns `StateFirst = 1`, `transitPresentFirst` returns
`StateSecond = 2` when `SendResponse` succeeds and panics with the error
otherwise, `responseAdapterHelper` returns `StateThird = 3` and
`transitPresentThird` returns 0; hence init, transition, adapter response,
transition drive an element through 1, 2, 3 to the terminated state 0. -/
theorem handlers_return_declared_states {Event RawPayload CustomPayload : Type}
    (args : Inputs Event RawPayload CustomPayload) :
    (initPresentHandler args.helper args.input args.rawPayload :
        ElementState × Option CustomPayload) = (StateFirst, none) ∧
    StateFirst = 1 ∧
    (transitPresentFirst args.helper args.input args.payload args.adapterHelper).2 =
      (match args.adapterHelper.SendResponse
          (args.helper.DeactivateTill ReactivateMode.Response) TestResult.mk StateFirst with
        | some err => Conveyor.Result.panic err
        | none => Conveyor.Result.ret StateSecond) ∧
    StateSecond = 2 ∧
    responseAdapterHelper args.helper args.input args.payload args.respPayload = StateThird ∧
    StateThird = 3 ∧
    transitPresentThird args.helper args.input args.payload = 0 ∧
    (∀ d ∈ Register, d.kind ≠ DeclarationKind.InitFuture →
      args.adapterHelper.SendResponse
        (args.helper.DeactivateTill ReactivateMode.Response) TestResult.mk StateFirst = none →
      ∃ next, d.next = some next ∧ d.handler.call args = Conveyor.Result.ret next) ∧
    (args.adapterHelper.SendResponse
        (args.helper.DeactivateTill ReactivateMode.Response) TestResult.mk StateFirst = none →
      lifecycle args = Conveyor.Result.ret [1, 2, 3, 0]) := by
  have htransit : (transitPresentFirst args.helper args.input args.payload
        args.adapterHelper).2 =
      (match args.adapterHelper.SendResponse
          (args.helper.DeactivateTill ReactivateMode.Response) TestResult.mk StateFirst with
        | some err => Conveyor.Result.panic err
        | none => Conveyor.Result.ret StateSecond) := by
    cases hres : args.adapterHelper.SendResponse
      (args.helper.DeactivateTill ReactivateMode.Response) TestResult.mk StateFirst <;>
      simp [transitPresentFirst, hres]
  refine ⟨rfl, rfl, htransit, rfl, rfl, rfl, rfl, ?_, ?_⟩
  · intro d hd hkind hsend
    rw [hsend] at htransit
    simp only [Register, List.mem_cons, List.mem_singleton, List.not_mem_nil, or_false] at hd
    rcases hd with rfl | rfl | rfl | rfl | rfl
    · exact absurd rfl hkind
    · exact ⟨StateFirst, rfl, rfl⟩
    · exact ⟨StateSecond, rfl, htransit⟩
    · exact ⟨StateThird, rfl, rfl⟩
    · exact ⟨0, rfl, rfl⟩
  · intro hsend
    rw [hsend] at htransit
    have hstep : step DeclarationKind.Transition StateFirst args =
        Conveyor.Result.ret StateSecond := htransit
    have hinit : step DeclarationKind.Init InitState args = Conveyor.Result.ret StateFirst := rfl
    have hresp : step DeclarationKind.AdapterResponse StateFirst args =
        Conveyor.Result.ret StateThird := rfl
    have hthird : step DeclarationKind.Transition StateThird args = Conveyor.Result.ret 0 := rfl
    simp only [lifecycle, hinit, hstep, hresp, hthird]
    rfl

/-- Witness for C16: a call whose `SendResponse` succeeds; the element goes
through the states 1, 2, 3 and ends in the terminated state 0. -/
theorem handlers_return_declared_states_witness :
    lifecycle
        ({ helper := { deactivatedTill := none }, input := (), rawPayload := (),
           payload := none, respPayload := some TestResult.mk,
           adapterHelper := { SendResponse := fun _ _ _ => none } } : Inputs Unit Unit Unit) =
      Conveyor.Result.ret [1, 2, 3, 0] :=
  (handlers_return_declared_states
    ({ helper := { deactivatedTill := none }, input := (), rawPayload := (),
       payload := none, respPayload := some TestResult.mk,
       adapterHelper := { SendResponse := fun _ _ _ => none } } :
      Inputs Unit Unit Unit)).2.2.2.2.2.2.2.2 rfl

end sample

namespace storage

/-! ## The key layout of `prefixkey` -/

/-- Closed form of `prefixkey`: the prefix byte, then the first `RefIDSize`
bytes of the key, then zero bytes up to `RefIDSize + 1` bytes in all. -/
theorem prefixkey_eq (RefIDSize : Nat) (pfx : Byte) (key : List Byte) :
    prefixkey RefIDSize pfx key =
      pfx :: (key.take RefIDSize ++ List.replicate (RefIDSize - key.length) 0) := by
  simp [prefixkey, make, copy, List.replicate_succ]

/-- C23: for every prefix byte and key, `prefixkey` has length exactly
`RefIDSize + 1`, its byte 0 is the prefix, byte `1 + i` is `key[i]` for every
`i < min(len(key), RefIDSize)`, and every remaining byte is 0; the bytes of the
key beyond `RefIDSize` are dropped, so `prefixkey` is injective on keys of
length exactly `RefIDSize`, but a key shorter than `RefIDSize` and the same
key padded with trailing zero bytes get the same result. -/
theorem prefixkey_layout (RefIDSize : Nat) (pfx : Byte) (key : List Byte) :
    (prefixkey RefIDSize pfx key).length = RefIDSize + 1 ∧
    (prefixkey RefIDSize pfx key)[0]? = some pfx ∧
    (∀ i, i < min key.length RefIDSize → (prefixkey RefIDSize pfx key)[1 + i]? = key[i]?) ∧
    (∀ j, min key.length RefIDSize < j → j ≤ RefIDSize →
      (prefixkey RefIDSize pfx key)[j]? = some 0) ∧
    prefixkey RefIDSize pfx key = prefixkey RefIDSize pfx (key.take RefIDSize) ∧
    (∀ key2 : List Byte, key.length = RefIDSize → key2.length = RefIDSize →
      prefixkey RefIDSize pfx key = prefixkey RefIDSize pfx key2 → key = key2) ∧
    (∀ n, key.length ≤ RefIDSize →
      prefixkey RefIDSize pfx (key ++ List.replicate n 0) = prefixkey RefIDSize pfx key) ∧
    (key.length < RefIDSize →
      key ++ [0] ≠ key ∧
      prefixkey RefIDSize pfx (key ++ [0]) = prefixkey RefIDSize pfx key) := by
  have hpad : ∀ n, key.length ≤ RefIDSize →
      prefixkey RefIDSize pfx (key ++ List.replicate n 0) = prefixkey RefIDSize pfx key := by
    intro n hle
    simp only [prefixkey_eq, List.take_append_eq_append_take, List.take_of_length_le hle,
      List.take_replicate, List.length_append, List.length_replicate, List.append_assoc,
      List.append_replicate_replicate]
    congr 3
    omega
  refine ⟨?_, ?_, ?_, ?_, ?_, ?_, hpad, ?_⟩
  · simp only [prefixkey_eq, List.length_cons, List.length_append, List.length_take,
      List.length_replicate]
    omega
  · simp [prefixkey_eq]
  · intro i hi
    have hi1 : i < key.length := lt_of_lt_of_le hi (Nat.min_le_left _ _)
    have hi2 : i < RefIDSize := lt_of_lt_of_le hi (Nat.min_le_right _ _)
    rw [prefixkey_eq, Nat.add_comm 1 i, List.getElem?_cons_succ,
      List.getElem?_append_left (by simp; omega), List.getElem?_take_of_lt hi2]
  · intro j hj hjR
    obtain ⟨k, rfl⟩ : ∃ k, j = k + 1 := ⟨j - 1, by omega⟩
    rw [prefixkey_eq, List.getElem?_cons_succ,
      List.getElem?_append_right (by simp; omega)]
    simp only [List.length_take]
    rw [List.getElem?_replicate]
    have : k - min RefIDSize key.length < RefIDSize - key.length := by omega
    simp [this]
  · simp only [prefixkey_eq, List.take_take, List.length_take, Nat.min_self]
    congr 3
    omega
  · intro key2 h1 h2 heq
    simpa [prefixkey_eq, List.take_of_length_le (le_of_eq h1),
      List.take_of_length_le (le_of_eq h2), h1, h2] using heq
  · intro hlt
    refine ⟨?_, ?_⟩
    · intro h
      have := congrArg List.length h
      simp at this
    · exact hpad 1 (le_of_lt hlt)

/-- Witness for C23: with `RefIDSize = 4`, the three-byte key `1, 2, 3` and the
same key padded with one zero byte get the same five-byte storage key. -/
theorem prefixkey_layout_witness :
    ([1, 2, 3] : List Byte) ++ [0] ≠ [1, 2, 3] ∧
    prefixkey 4 7 ([1, 2, 3] ++ [0]) = prefixkey 4 7 [1, 2, 3] :=
  (prefixkey_layout 4 7 [1, 2, 3]).2.2.2.2.2.2.2 (by decide)

/-! ## Lookup errors of the reads -/

/-- The lookup-error rule of `GetRecord`. -/
theorem GetRecord_lookup {Reference Record ClassLifeline ObjectLifeline : Type}
    (deps : Deps Reference Record ClassLifeline ObjectLifeline) (m : TransactionManager)
    (ref : Reference) :
    (m.GetRecord deps ref = Except.error Error.ErrNotFound ↔
      m.txn.Get (prefixkey deps.RefIDSize deps.scopeIDRecord (deps.CoreRef ref)) =
        Except.error BadgerError.ErrKeyNotFound) ∧
    (∀ e, m.txn.Get (prefixkey deps.RefIDSize deps.scopeIDRecord (deps.CoreRef ref)) =
        Except.error e → e ≠ BadgerError.ErrKeyNotFound →
      m.GetRecord deps ref = Except.error (Error.badger e)) := by
  unfold TransactionManager.GetRecord
  cases hget : m.txn.Get (prefixkey deps.RefIDSize deps.scopeIDRecord (deps.CoreRef ref)) with
  | error e =>
    by_cases he : e = BadgerError.ErrKeyNotFound
    · simp [hget, he]
    · simp [hget, he]
  | ok item =>
    cases hv : item.value with
    | error e => simp [hget, hv]
    | ok buf =>
      cases hd : deps.DecodeToRecord buf <;> simp [hget, hv, hd]

/-- The lookup-error rule of `GetClassIndex`. -/
theorem GetClassIndex_lookup {Reference Record ClassLifeline ObjectLifeline : Type}
    (deps : Deps Reference Record ClassLifeline ObjectLifeline) (m : TransactionManager)
    (ref : Reference) :
    (m.GetClassIndex deps ref = Except.error Error.ErrNotFound ↔
      m.txn.Get (prefixkey deps.RefIDSize deps.scopeIDLifeline (deps.CoreRef ref)) =
        Except.error BadgerError.ErrKeyNotFound) ∧
    (∀ e, m.txn.Get (prefixkey deps.RefIDSize deps.scopeIDLifeline (deps.CoreRef ref)) =
        Except.error e → e ≠ BadgerError.ErrKeyNotFound →
      m.GetClassIndex deps ref = Except.error (Error.badger e)) := by
  unfold TransactionManager.GetClassIndex
  cases hget : m.txn.Get (prefixkey deps.RefIDSize deps.scopeIDLifeline (deps.CoreRef ref)) with
  | error e =>
    by_cases he : e = BadgerError.ErrKeyNotFound
    · simp [hget, he]
    · simp [hget, he]
  | ok item =>
    cases hv : item.value with
    | error e => simp [hget, hv]
    | ok buf =>
      cases hd : deps.DecodeClassLifeline buf <;> simp [hget, hv, hd]

/-- The lookup-error rule of `GetObjectIndex`. -/
theorem GetObjectIndex_lookup {Reference Record ClassLifeline ObjectLifeline : Type}
    (deps : Deps Reference Record ClassLifeline ObjectLifeline) (m : TransactionManager)
    (ref : Reference) :
    (m.GetObjectIndex deps ref = Except.error Error.ErrNotFound ↔
      m.txn.Get (prefixkey deps.RefIDSize deps.scopeIDLifeline (deps.CoreRef ref)) =
        Except.error BadgerError.ErrKeyNotFound) ∧
    (∀ e, m.txn.Get (prefixkey deps.RefIDSize deps.scopeIDLifeline (deps.CoreRef ref)) =
        Except.error e → e ≠ BadgerError.ErrKeyNotFound →
      m.GetObjectIndex deps ref = Except.error (Error.badger e)) := by
  unfold TransactionManager.GetObjectIndex
  cases hget : m.txn.Get (prefixkey deps.RefIDSize deps.scopeIDLifeline (deps.CoreRef ref)) with
  | error e =>
    by_cases he : e = BadgerError.ErrKeyNotFound
    · simp [hget, he]
    · simp [hget, he]
  | ok item =>
    cases hv : item.value with
    | error e => simp [hget, hv]
    | ok buf =>
      cases hd : deps.DecodeObjectLifeline buf <;> simp [hget, hv, hd]

/-- The lookup-error rule of `GetEntropy`. -/
theorem GetEntropy_lookup {Reference Record ClassLifeline ObjectLifeline : Type}
    (deps : Deps Reference Record ClassLifeline ObjectLifeline) (m : TransactionManager)
    (pulse : Nat) :
    (m.GetEntropy deps pulse = Except.error Error.ErrNotFound ↔
      m.txn.Get (prefixkey deps.RefIDSize deps.scopeIDEntropy (deps.EncodePulseNum pulse)) =
        Except.error BadgerError.ErrKeyNotFound) ∧
    (∀ e, m.txn.Get (prefixkey deps.RefIDSize deps.scopeIDEntropy (deps.EncodePulseNum pulse)) =
        Except.error e → e ≠ BadgerError.ErrKeyNotFound →
      m.GetEntropy deps pulse = Except.error (Error.badger e)) := by
  unfold TransactionManager.GetEntropy
  cases hget : m.txn.Get (prefixkey deps.RefIDSize deps.scopeIDEntropy (deps.EncodePulseNum pulse)) with
  | error e =>
    by_cases he : e = BadgerError.ErrKeyNotFound
    · simp [hget, he]
    · simp [hget, he]
  | ok item =>
    cases hv : item.value with
    | error e => simp [hget, hv]
    | ok buf =>
      simp [hget, hv]

/-- The lookup-error rule of `Get`. -/
theorem Get_lookup (m : TransactionManager) (key : List Byte) :
    (m.Get key = Except.error Error.ErrNotFound ↔
      m.txn.Get key = Except.error BadgerError.ErrKeyNotFound) ∧
    (∀ e, m.txn.Get key = Except.error e → e ≠ BadgerError.ErrKeyNotFound →
      m.Get key = Except.error (Error.badger e)) := by
  unfold TransactionManager.Get
  cases hget : m.txn.Get key with
  | error e =>
    by_cases he : e = BadgerError.ErrKeyNotFound
    · simp [hget, he]
    · simp [hget, he]
  | ok item =>
    cases hv : item.value with
    | error e => simp [hget, hv]
    | ok buf => simp [hget, hv]

/-- C21: every read of `TransactionManager` (`GetRecord`, `GetClassIndex`,
`GetObjectIndex`, `GetEntropy`, `Get`) returns `ErrNotFound` exactly when the
lookup `txn.Get` of its key reports `badger.ErrKeyNotFound`, and returns any
other lookup error unchanged, in both cases without a value. -/
theorem reads_lookup_errors {Reference Record ClassLifeline ObjectLifeline : Type}
    (deps : Deps Reference Record ClassLifeline ObjectLifeline) (m : TransactionManager)
    (ref : Reference) (pulse : Nat) (key : List Byte) :
    ((m.GetRecord deps ref = Except.error Error.ErrNotFound ↔
        m.txn.Get (prefixkey deps.RefIDSize deps.scopeIDRecord (deps.CoreRef ref)) =
          Except.error BadgerError.ErrKeyNotFound) ∧
      (∀ e, m.txn.Get (prefixkey deps.RefIDSize deps.scopeIDRecord (deps.CoreRef ref)) =
          Except.error e → e ≠ BadgerError.ErrKeyNotFound →
        m.GetRecord deps ref = Except.error (Error.badger e))) ∧
    ((m.GetClassIndex deps ref = Except.error Error.ErrNotFound ↔
        m.txn.Get (prefixkey deps.RefIDSize deps.scopeIDLifeline (deps.CoreRef ref)) =
          Except.error BadgerError.ErrKeyNotFound) ∧
      (∀ e, m.txn.Get (prefixkey deps.RefIDSize deps.scopeIDLifeline (deps.CoreRef ref)) =
          Except.error e → e ≠ BadgerError.ErrKeyNotFound →
        m.GetClassIndex deps ref = Except.error (Error.badger e))) ∧
    ((m.GetObjectIndex deps ref = Except.error Error.ErrNotFound ↔
        m.txn.Get (prefixkey deps.RefIDSize deps.scopeIDLifeline (deps.CoreRef ref)) =
          Except.error BadgerError.ErrKeyNotFound) ∧
      (∀ e, m.txn.Get (prefixkey deps.RefIDSize deps.scopeIDLifeline (deps.CoreRef ref)) =
          Except.error e → e ≠ BadgerError.ErrKeyNotFound →
        m.GetObjectIndex deps ref = Except.error (Error.badger e))) ∧
    ((m.GetEntropy deps pulse = Except.error Error.ErrNotFound ↔
        m.txn.Get (prefixkey deps.RefIDSize deps.scopeIDEntropy (deps.EncodePulseNum pulse)) =
          Except.error BadgerError.ErrKeyNotFound) ∧
      (∀ e, m.txn.Get (prefixkey deps.RefIDSize deps.scopeIDEntropy
          (deps.EncodePulseNum pulse)) = Except.error e → e ≠ BadgerError.ErrKeyNotFound →
        m.GetEntropy deps pulse = Except.error (Error.badger e))) ∧
    ((m.Get key = Except.error Error.ErrNotFound ↔
        m.txn.Get key = Except.error BadgerError.ErrKeyNotFound) ∧
      (∀ e, m.txn.Get key = Except.error e → e ≠ BadgerError.ErrKeyNotFound →
        m.Get key = Except.error (Error.badger e))) :=
  ⟨GetRecord_lookup deps m ref, GetClassIndex_lookup deps m ref,
    GetObjectIndex_lookup deps m ref, GetEntropy_lookup deps m pulse, Get_lookup m key⟩

/-- Witness for C21: a discarded transaction, whose lookups report an error
other than `ErrKeyNotFound`; `Get` returns that error unchanged. -/
theorem reads_lookup_errors_witness :
    TransactionManager.Get
        { txn := { update := false, fault := some (BadgerError.other "discarded"),
                   entries := [] } } [1, 2] =
      Except.error (Error.badger (BadgerError.other "discarded")) :=
  (reads_lookup_errors
    ({ RefIDSize := 4, scopeIDRecord := 1, scopeIDLifeline := 2, scopeIDEntropy := 3,
       CoreRef := fun _ => [], EncodePulseNum := fun _ => [],
       DecodeToRecord := fun _ => Except.ok (), DecodeClassLifeline := fun _ => Except.ok (),
       EncodeClassLifeline := fun _ => Except.ok [],
       DecodeObjectLifeline := fun _ => Except.ok (),
       EncodeObjectLifeline := fun _ => Except.ok [] } : Deps Unit Unit Unit Unit)
    { txn := { update := false, fault := some (BadgerError.other "discarded"), entries := [] } }
    () 0 [1, 2]).2.2.2.2.2 (BadgerError.other "discarded") rfl (by decide)

/-! ## The shared key of the two lifeline indexes -/

/-- A lookup in an update transaction without fault sees the value just
written under the same key. -/
theorem Txn_Get_Set (txn : Txn) (k val : List Byte) (hupd : txn.update = true)
    (hfault : txn.fault = none) :
    (txn.Set k val).2 = none ∧
    (txn.Set k val).1.entries = (k, { value := Except.ok val }) :: txn.entries ∧
    (txn.Set k val).1.update = true ∧ (txn.Set k val).1.fault = none ∧
    (txn.Set k val).1.Get k = Except.ok { value := Except.ok val } := by
  simp [Txn.Set, Txn.Get, hupd, hfault]

/-- C22: for every reference, `SetClassIndex` and `SetObjectIndex` write
under the same storage key `prefixkey(scopeIDLifeline, ref.CoreRef())`, which
is also the key `GetClassIndex` and `GetObjectIndex` look up; so within one
update transaction `SetClassIndex(ref, c)` followed by `GetObjectIndex(ref)`
does not return `ErrNotFound` but decodes the bytes written for the class
index, and a later `SetObjectIndex(ref, o)` overwrites the class index. -/
theorem lifeline_indexes_share_key {Reference Record ClassLifeline ObjectLifeline : Type}
    (deps : Deps Reference Record ClassLifeline ObjectLifeline) (m : TransactionManager)
    (ref : Reference) (c : ClassLifeline) (o : ObjectLifeline) (encC encO : List Byte)
    (hupd : m.txn.update = true) (hfault : m.txn.fault = none)
    (hc : deps.EncodeClassLifeline c = Except.ok encC)
    (ho : deps.EncodeObjectLifeline o = Except.ok encO) :
    (m.SetClassIndex deps ref c).2 = none ∧
    (m.SetClassIndex deps ref c).1.txn.entries =
      (prefixkey deps.RefIDSize deps.scopeIDLifeline (deps.CoreRef ref),
        { value := Except.ok encC }) :: m.txn.entries ∧
    (m.SetObjectIndex deps ref o).1.txn.entries =
      (prefixkey deps.RefIDSize deps.scopeIDLifeline (deps.CoreRef ref),
        { value := Except.ok encO }) :: m.txn.entries ∧
    (m.SetClassIndex deps ref c).1.GetObjectIndex deps ref =
      (match deps.DecodeObjectLifeline encC with
        | Except.error err => Except.error (Error.codec err)
        | Except.ok idx => Except.ok idx) ∧
    (m.SetClassIndex deps ref c).1.GetObjectIndex deps ref ≠ Except.error Error.ErrNotFound ∧
    ((m.SetClassIndex deps ref c).1.SetObjectIndex deps ref o).2 = none ∧
    ((m.SetClassIndex deps ref c).1.SetObjectIndex deps ref o).1.GetClassIndex deps ref =
      (match deps.DecodeClassLifeline encO with
        | Except.error err => Except.error (Error.codec err)
        | Except.ok idx => Except.ok idx) := by
  have h1 := Txn_Get_Set m.txn
    (prefixkey deps.RefIDSize deps.scopeIDLifeline (deps.CoreRef ref)) encC hupd hfault
  have h2 := Txn_Get_Set m.txn
    (prefixkey deps.RefIDSize deps.scopeIDLifeline (deps.CoreRef ref)) encO hupd hfault
  have h3 := Txn_Get_Set (m.txn.Set
    (prefixkey deps.RefIDSize deps.scopeIDLifeline (deps.CoreRef ref)) encC).1
    (prefixkey deps.RefIDSize deps.scopeIDLifeline (deps.CoreRef ref)) encO h1.2.2.1
    h1.2.2.2.1
  have hget : (m.SetClassIndex deps ref c).1.GetObjectIndex deps ref =
      (match deps.DecodeObjectLifeline encC with
        | Except.error err => Except.error (Error.codec err)
        | Except.ok idx => Except.ok idx) := by
    simp only [TransactionManager.SetClassIndex, TransactionManager.GetObjectIndex, hc,
      h1.2.2.2.2]
  refine ⟨?_, ?_, ?_, hget, ?_, ?_, ?_⟩
  · simp [TransactionManager.SetClassIndex, hc, h1.1]
  · simp [TransactionManager.SetClassIndex, hc, h1.2.1]
  · simp [TransactionManager.SetObjectIndex, ho, h2.2.1]
  · rw [hget]
    cases deps.DecodeObjectLifeline encC <;> simp
  · simp [TransactionManager.SetClassIndex, TransactionManager.SetObjectIndex, hc, ho, h3.1]
  · simp only [TransactionManager.SetClassIndex, TransactionManager.SetObjectIndex,
      TransactionManager.GetClassIndex, hc, ho, h3.2.2.2.2]

/-- Witness for C22: identity codecs on byte strings, an empty update
transaction; after `SetClassIndex` of the bytes `5`, `GetObjectIndex` of the
same reference returns them. -/
theorem lifeline_indexes_share_key_witness :
    (TransactionManager.SetClassIndex
        ({ RefIDSize := 4, scopeIDRecord := 1, scopeIDLifeline := 2, scopeIDEntropy := 3,
           CoreRef := fun _ => [9, 9], EncodePulseNum := fun _ => [],
           DecodeToRecord := fun _ => Except.ok (),
           DecodeClassLifeline := fun b => Except.ok b,
           EncodeClassLifeline := fun b => Except.ok b,
           DecodeObjectLifeline := fun b => Except.ok b,
           EncodeObjectLifeline := fun b => Except.ok b } :
          Deps Unit Unit (List Byte) (List Byte))
        { txn := { update := true, fault := none, entries := [] } } () [5]).1.GetObjectIndex
      ({ RefIDSize := 4, scopeIDRecord := 1, scopeIDLifeline := 2, scopeIDEntropy := 3,
         CoreRef := fun _ => [9, 9], EncodePulseNum := fun _ => [],
         DecodeToRecord := fun _ => Except.ok (),
         DecodeClassLifeline := fun b => Except.ok b,
         EncodeClassLifeline := fun b => Except.ok b,
         DecodeObjectLifeline := fun b => Except.ok b,
         EncodeObjectLifeline := fun b => Except.ok b } :
        Deps Unit Unit (List Byte) (List Byte)) () = Except.ok [5] :=
  (lifeline_indexes_share_key
    ({ RefIDSize := 4, scopeIDRecord := 1, scopeIDLifeline := 2, scopeIDEntropy := 3,
       CoreRef := fun _ => [9, 9], EncodePulseNum := fun _ => [],
       DecodeToRecord := fun _ => Except.ok (),
       DecodeClassLifeline := fun b => Except.ok b,
       EncodeClassLifeline := fun b => Except.ok b,
       DecodeObjectLifeline := fun b => Except.ok b,
       EncodeObjectLifeline := fun b => Except.ok b } :
      Deps Unit Unit (List Byte) (List Byte))
    { txn := { update := true, fault := none, entries := [] } } () [5] [6] [5] [6]
    rfl rfl rfl rfl).2.2.2.1

end storage

namespace controller

/-! ## Invoking registered procedures -/

/-- C24, as stated, fails in the "only if" direction: a procedure registered
under `foo` that itself returns a nil result and the error
`RPC with name foo is not registered` makes `invoke` return that same pair,
although a procedure is registered under the name. -/
theorem invoke_not_registered_not_iff :
    rpcController.invoke
        (rpcController.RemoteProcedureRegister
          ({ network := { GetNodeID := (), refString := fun _ => "",
                          CalculateNextNodes := fun _ _ => Except.ok [],
                          SendRequest := fun st _ _ => (st, none) },
             methodTable := fun _ => none } : rpcController Unit Unit)
          "foo" (fun _ _ => (none, some "RPC with name foo is not registered")))
        { traceID := "" } "foo" [] =
      (none, some "RPC with name foo is not registered") ∧
    ((rpcController.RemoteProcedureRegister
          ({ network := { GetNodeID := (), refString := fun _ => "",
                          CalculateNextNodes := fun _ _ => Except.ok [],
                          SendRequest := fun st _ _ => (st, none) },
             methodTable := fun _ => none } : rpcController Unit Unit)
          "foo" (fun _ _ => (none, some "RPC with name foo is not registered"))).methodTable
        "foo").isSome = true := by
  constructor
  · rfl
  · rfl

/-- C24, amended: for every method table and name, if no procedure is
registered under the name, `invoke` returns a nil result and the error
`RPC with name <name> is not registered`; otherwise it returns exactly the
result and error of the procedure registered under the name, which is the one
passed to the most recent `RemoteProcedureRegister` for that name: a later
registration overwrites an earlier one and leaves other names as they
were. -/
theorem invoke_registered {σ Ref : Type} (rpc : rpcController σ Ref) (ctx : Context)
    (name other : String) (data : List (List Byte)) (method method2 : RemoteProcedure)
    (hother : other ≠ name) :
    (rpc.methodTable name = none →
      rpc.invoke ctx name data =
        (none, some ("RPC with name " ++ name ++ " is not registered"))) ∧
    (rpc.methodTable name = some method → rpc.invoke ctx name data = method ctx data) ∧
    (rpc.RemoteProcedureRegister name method).invoke ctx name data = method ctx data ∧
    ((rpc.RemoteProcedureRegister name method).RemoteProcedureRegister name method2).invoke
        ctx name data = method2 ctx data ∧
    (rpc.RemoteProcedureRegister name method).invoke ctx other data =
      rpc.invoke ctx other data := by
  refine ⟨?_, ?_, ?_, ?_, ?_⟩
  · intro h
    simp [rpcController.invoke, h]
  · intro h
    simp [rpcController.invoke, h]
  · simp [rpcController.invoke, rpcController.RemoteProcedureRegister]
  · simp [rpcController.invoke, rpcController.RemoteProcedureRegister]
  · simp [rpcController.invoke, rpcController.RemoteProcedureRegister, hother]

/-- Witness for C24, amended: on an empty method table, after registering a
procedure under `ping`, invoking `pong` is still rejected as not
registered. -/
theorem invoke_registered_witness :
    rpcController.invoke
        (rpcController.RemoteProcedureRegister
          ({ network := { GetNodeID := (), refString := fun _ => "",
                          CalculateNextNodes := fun _ _ => Except.ok [],
                          SendRequest := fun st _ _ => (st, none) },
             methodTable := fun _ => none } : rpcController Unit Unit)
          "ping" (fun _ _ => (some [1], none)))
        { traceID := "" } "pong" [] =
      (none, some "RPC with name pong is not registered") :=
  ((invoke_registered
    ({ network := { GetNodeID := (), refString := fun _ => "",
                    CalculateNextNodes := fun _ _ => Except.ok [],
                    SendRequest := fun st _ _ => (st, none) },
       methodTable := fun _ => none } : rpcController Unit Unit)
    { traceID := "" } "ping" "pong" [] (fun _ _ => (some [1], none))
    (fun _ _ => (none, none)) (by decide)).2.2.2.2).trans rfl

/-! ## Cascade sending -/

/-- The loop sends to every node of the list, in order, whatever the earlier
sends returned, and `failedNodes` collects the string forms of the nodes whose
send failed, in order. -/
theorem sendToNextNodes_spec {σ Ref : Type} (rpc : rpcController σ Ref) (ctx : Context)
    (data : Cascade Ref) (method : String) (args : List (List Byte)) (nextNodes : List Ref)
    (acc : SendLoop σ Ref)
    (hacc : acc.failedNodes =
      (acc.attempts.filter (fun a => a.2.isSome)).map (fun a => rpc.network.refString a.1)) :
    ((rpc.sendToNextNodes ctx data method args nextNodes acc).attempts.map Prod.fst =
      acc.attempts.map Prod.fst ++ nextNodes) ∧
    (rpc.sendToNextNodes ctx data method args nextNodes acc).failedNodes =
      ((rpc.sendToNextNodes ctx data method args nextNodes acc).attempts.filter
        (fun a => a.2.isSome)).map (fun a => rpc.network.refString a.1) := by
  induction nextNodes generalizing acc with
  | nil => exact ⟨by simp [rpcController.sendToNextNodes], hacc⟩
  | cons nextNode rest ih =>
    unfold rpcController.sendToNextNodes
    rcases hsend : rpc.requestCascadeSendMessage acc.state ctx data nextNode method args with
      ⟨st, _ | err⟩
    · have h := ih ⟨st, acc.failedNodes, acc.attempts ++ [(nextNode, none)]⟩
        (by simp [hacc])
      simpa using h
    · have h := ih ⟨st, acc.failedNodes ++ [rpc.network.refString nextNode],
        acc.attempts ++ [(nextNode, some err)]⟩ (by simp [hacc])
      simpa using h

/-- A text that starts with a non-empty text is not empty. -/
theorem append_ne_empty_left (a b : String) (h : a ≠ "") : a ++ b ≠ "" := by
  intro hab
  apply h
  have h1 : (a ++ b).data = [] := by rw [hab]
  rw [String.data_append] at h1
  exact String.ext (List.append_eq_nil.mp h1).1

/-- A text that finishes with a non-empty text is not empty. -/
theorem append_ne_empty_right (a b : String) (h : b ≠ "") : a ++ b ≠ "" := by
  intro hab
  apply h
  have h1 : (a ++ b).data = [] := by rw [hab]
  rw [String.data_append] at h1
  exact String.ext (List.append_eq_nil.mp h1).2

/-- The error `initCascadeSendMessage` returns, read off the sends its loop
recorded: nil if and only if none of them failed, otherwise the message
naming the nodes whose send failed. -/
theorem initCascadeSendMessage_attempts {σ Ref : Type} (rpc : rpcController σ Ref) (st : σ)
    (ctx : Context) (data : Cascade Ref) (findCurrentNode : Bool) (method : String)
    (args : List (List Byte)) :
    (data.NodeIds = [] →
      rpc.initCascadeSendMessage st ctx data findCurrentNode method args =
        { state := st, attempts := [], err := some "node IDs list should not be empty" }) ∧
    (data.NodeIds ≠ [] → data.ReplicationFactor = 0 →
      rpc.initCascadeSendMessage st ctx data findCurrentNode method args =
        { state := st, attempts := [],
          err := some "replication factor should not be zero" }) ∧
    (∀ nextNodes, data.NodeIds ≠ [] → data.ReplicationFactor ≠ 0 →
      (if findCurrentNode then
          rpc.network.CalculateNextNodes data (some rpc.network.GetNodeID)
        else rpc.network.CalculateNextNodes data none) = Except.ok nextNodes →
      (rpc.initCascadeSendMessage st ctx data findCurrentNode method args).attempts.map
          Prod.fst = nextNodes ∧
      ((rpc.initCascadeSendMessage st ctx data findCurrentNode method args).err = none ↔
        ∀ a ∈ (rpc.initCascadeSendMessage st ctx data findCurrentNode method args).attempts,
          a.2 = none) ∧
      ((∃ a ∈ (rpc.initCascadeSendMessage st ctx data findCurrentNode method args).attempts,
          a.2 ≠ none) →
        (rpc.initCascadeSendMessage st ctx data findCurrentNode method args).err =
          some ("Failed to send cascade message to nodes: " ++
            String.intercalate ", "
              (((rpc.initCascadeSendMessage st ctx data findCurrentNode method
                  args).attempts.filter (fun a => a.2.isSome)).map
                (fun a => rpc.network.refString a.1))))) := by
  refine ⟨?_, ?_, ?_⟩
  · intro h
    simp [rpcController.initCascadeSendMessage, h]
  · intro h hrf
    simp [rpcController.initCascadeSendMessage, h, hrf]
  · intro nextNodes hne hrf hcalc
    have hspec := sendToNextNodes_spec rpc ctx data method args nextNodes
      ⟨st, [], []⟩ (by simp)
    simp only [List.map_nil, List.nil_append] at hspec
    obtain ⟨hmap, hfail⟩ := hspec
    have hinit : rpc.initCascadeSendMessage st ctx data findCurrentNode method args =
        if nextNodes.length = 0 then { state := st, attempts := [], err := none }
        else
          if (rpc.sendToNextNodes ctx data method args nextNodes
              ⟨st, [], []⟩).failedNodes.length > 0 then
            { state := (rpc.sendToNextNodes ctx data method args nextNodes ⟨st, [], []⟩).state,
              attempts :=
                (rpc.sendToNextNodes ctx data method args nextNodes ⟨st, [], []⟩).attempts,
              err := some ("Failed to send cascade message to nodes: " ++
                String.intercalate ", "
                  (rpc.sendToNextNodes ctx data method args nextNodes
                    ⟨st, [], []⟩).failedNodes) }
          else
            { state := (rpc.sendToNextNodes ctx data method args nextNodes ⟨st, [], []⟩).state,
              attempts :=
                (rpc.sendToNextNodes ctx data method args nextNodes ⟨st, [], []⟩).attempts,
              err := none } := by
      simp only [rpcController.initCascadeSendMessage, hcalc]
      simp [hne, hrf]
    rw [hinit]
    by_cases hnil : nextNodes.length = 0
    · have hn : nextNodes = [] := List.length_eq_zero.mp hnil
      simp [hn]
    · rw [if_neg hnil]
      by_cases hlen : (rpc.sendToNextNodes ctx data method args nextNodes
          ⟨st, [], []⟩).failedNodes.length > 0
      · rw [if_pos hlen]
        refine ⟨hmap, ?_, ?_⟩
        · constructor
          · intro h
            simp at h
          · intro hall
            exfalso
            rw [hfail] at hlen
            have hfilter : (rpc.sendToNextNodes ctx data method args nextNodes
                ⟨st, [], []⟩).attempts.filter (fun a => a.2.isSome) = [] := by
              apply List.filter_eq_nil_iff.mpr
              intro a ha
              simp [hall a ha]
            rw [hfilter] at hlen
            simp at hlen
        · intro _
          simp only
          rw [← hfail]
      · rw [if_neg hlen]
        have hempty : (rpc.sendToNextNodes ctx data method args nextNodes
            ⟨st, [], []⟩).failedNodes = [] := by
          apply List.length_eq_zero.mp
          omega
        rw [hfail] at hempty
        have hfilter : (rpc.sendToNextNodes ctx data method args nextNodes
            ⟨st, [], []⟩).attempts.filter (fun a => a.2.isSome) = [] := by
          simpa using hempty
        have hall : ∀ a ∈ (rpc.sendToNextNodes ctx data method args nextNodes
            ⟨st, [], []⟩).attempts, a.2 = none := by
          intro a ha
          have := List.filter_eq_nil_iff.mp hfilter a ha
          simpa using this
        refine ⟨hmap, ?_, ?_⟩
        · simp only [true_iff]
          exact hall
        · rintro ⟨a, ha, hfailed⟩
          exact absurd (hall a ha) hfailed

/-- The loop makes exactly the sends of `sendToEveryNode`: it leaves the
network in the state they leave and records the error of each. -/
theorem sendToNextNodes_sendToEveryNode {σ Ref : Type} (rpc : rpcController σ Ref)
    (ctx : Context) (data : Cascade Ref) (method : String) (args : List (List Byte))
    (nextNodes : List Ref) (acc : SendLoop σ Ref) :
    (rpc.sendToNextNodes ctx data method args nextNodes acc).state =
      (rpc.network.sendToEveryNode
        { TraceID := ctx.traceID, RPC := { Method := method, Data := args }, Cascade := data }
        nextNodes acc.state).1 ∧
    (rpc.sendToNextNodes ctx data method args nextNodes acc).attempts =
      acc.attempts ++ (rpc.network.sendToEveryNode
        { TraceID := ctx.traceID, RPC := { Method := method, Data := args }, Cascade := data }
        nextNodes acc.state).2 := by
  induction nextNodes generalizing acc with
  | nil => simp [rpcController.sendToNextNodes, Network.sendToEveryNode]
  | cons nextNode rest ih =>
    unfold rpcController.sendToNextNodes
    rcases hsend : rpc.requestCascadeSendMessage acc.state ctx data nextNode method args with
      ⟨st, _ | err⟩
    · have hreq : rpc.network.SendRequest acc.state nextNode
          { TraceID := ctx.traceID, RPC := { Method := method, Data := args },
            Cascade := data } = (st, none) := hsend
      have h := ih ⟨st, acc.failedNodes, acc.attempts ++ [(nextNode, none)]⟩
      simp only [Network.sendToEveryNode, hreq]
      simpa using h
    · have hreq : rpc.network.SendRequest acc.state nextNode
          { TraceID := ctx.traceID, RPC := { Method := method, Data := args },
            Cascade := data } = (st, some err) := hsend
      have h := ih ⟨st, acc.failedNodes ++ [rpc.network.refString nextNode],
        acc.attempts ++ [(nextNode, some err)]⟩
      simp only [Network.sendToEveryNode, hreq]
      simpa using h

/-- When the next-node list is computed, `initCascadeSendMessage` makes
exactly the sends of `sendToEveryNode` to it, starting from the network state
it was called in. -/
theorem initCascadeSendMessage_sends {σ Ref : Type} (rpc : rpcController σ Ref) (st : σ)
    (ctx : Context) (data : Cascade Ref) (findCurrentNode : Bool) (method : String)
    (args : List (List Byte)) (nextNodes : List Ref) (hne : data.NodeIds ≠ [])
    (hrf : data.ReplicationFactor ≠ 0)
    (hcalc : (if findCurrentNode then
          rpc.network.CalculateNextNodes data (some rpc.network.GetNodeID)
        else rpc.network.CalculateNextNodes data none) = Except.ok nextNodes) :
    (rpc.initCascadeSendMessage st ctx data findCurrentNode method args).state =
      (rpc.network.sendToEveryNode
        { TraceID := ctx.traceID, RPC := { Method := method, Data := args }, Cascade := data }
        nextNodes st).1 ∧
    (rpc.initCascadeSendMessage st ctx data findCurrentNode method args).attempts =
      (rpc.network.sendToEveryNode
        { TraceID := ctx.traceID, RPC := { Method := method, Data := args }, Cascade := data }
        nextNodes st).2 := by
  have hloop := sendToNextNodes_sendToEveryNode rpc ctx data method args nextNodes
    ⟨st, [], []⟩
  simp only [List.nil_append] at hloop
  have hinit : rpc.initCascadeSendMessage st ctx data findCurrentNode method args =
      if nextNodes.length = 0 then { state := st, attempts := [], err := none }
      else
        if (rpc.sendToNextNodes ctx data method args nextNodes
            ⟨st, [], []⟩).failedNodes.length > 0 then
          { state := (rpc.sendToNextNodes ctx data method args nextNodes ⟨st, [], []⟩).state,
            attempts :=
              (rpc.sendToNextNodes ctx data method args nextNodes ⟨st, [], []⟩).attempts,
            err := some ("Failed to send cascade message to nodes: " ++
              String.intercalate ", "
                (rpc.sendToNextNodes ctx data method args nextNodes
                  ⟨st, [], []⟩).failedNodes) }
        else
          { state := (rpc.sendToNextNodes ctx data method args nextNodes ⟨st, [], []⟩).state,
            attempts :=
              (rpc.sendToNextNodes ctx data method args nextNodes ⟨st, [], []⟩).attempts,
            err := none } := by
    simp only [rpcController.initCascadeSendMessage, hcalc]
    simp [hne, hrf]
  rw [hinit]
  by_cases hnil : nextNodes.length = 0
  · have hn : nextNodes = [] := List.length_eq_zero.mp hnil
    simp [hn, Network.sendToEveryNode]
  · rw [if_neg hnil]
    by_cases hlen : (rpc.sendToNextNodes ctx data method args nextNodes
        ⟨st, [], []⟩).failedNodes.length > 0
    · rw [if_pos hlen]
      exact hloop
    · rw [if_neg hlen]
      exact hloop

/-- C25: `initCascadeSendMessage` rejects an empty `NodeIds` list and a zero
`ReplicationFactor` with their messages before any node is contacted, the
network being left as it was; when the next-node list is computed, it sends
the request with `SendRequest` to every next node, in order, also after an
earlier send failed (the network is left in the state these sends leave, each
send starting from the state the one before left), and returns nil if and only
if no send failed, otherwise the error
`Failed to send cascade message to nodes: ` followed by the string forms of the
nodes whose send failed joined by `, ` in next-node order. -/
theorem initCascadeSendMessage_spec {σ Ref : Type} (rpc : rpcController σ Ref) (st : σ)
    (ctx : Context) (data : Cascade Ref) (findCurrentNode : Bool) (method : String)
    (args : List (List Byte)) :
    (data.NodeIds = [] →
      rpc.initCascadeSendMessage st ctx data findCurrentNode method args =
        { state := st, attempts := [], err := some "node IDs list should not be empty" }) ∧
    (data.NodeIds ≠ [] → data.ReplicationFactor = 0 →
      rpc.initCascadeSendMessage st ctx data findCurrentNode method args =
        { state := st, attempts := [],
          err := some "replication factor should not be zero" }) ∧
    (∀ nextNodes, data.NodeIds ≠ [] → data.ReplicationFactor ≠ 0 →
      (if findCurrentNode then
          rpc.network.CalculateNextNodes data (some rpc.network.GetNodeID)
        else rpc.network.CalculateNextNodes data none) = Except.ok nextNodes →
      (rpc.initCascadeSendMessage st ctx data findCurrentNode method args).state =
        (rpc.network.sendToEveryNode
          { TraceID := ctx.traceID, RPC := { Method := method, Data := args },
            Cascade := data } nextNodes st).1 ∧
      (rpc.initCascadeSendMessage st ctx data findCurrentNode method args).attempts =
        (rpc.network.sendToEveryNode
          { TraceID := ctx.traceID, RPC := { Method := method, Data := args },
            Cascade := data } nextNodes st).2 ∧
      (rpc.network.sendToEveryNode
          { TraceID := ctx.traceID, RPC := { Method := method, Data := args },
            Cascade := data } nextNodes st).2.map Prod.fst = nextNodes ∧
      ((rpc.initCascadeSendMessage st ctx data findCurrentNode method args).err = none ↔
        ∀ a ∈ (rpc.network.sendToEveryNode
          { TraceID := ctx.traceID, RPC := { Method := method, Data := args },
            Cascade := data } nextNodes st).2, a.2 = none) ∧
      ((∃ a ∈ (rpc.network.sendToEveryNode
          { TraceID := ctx.traceID, RPC := { Method := method, Data := args },
            Cascade := data } nextNodes st).2, a.2 ≠ none) →
        (rpc.initCascadeSendMessage st ctx data findCurrentNode method args).err =
          some ("Failed to send cascade message to nodes: " ++
            String.intercalate ", "
              (((rpc.network.sendToEveryNode
                  { TraceID := ctx.traceID, RPC := { Method := method, Data := args },
                    Cascade := data } nextNodes st).2.filter (fun a => a.2.isSome)).map
                (fun a => rpc.network.refString a.1))))) := by
  have hold := initCascadeSendMessage_attempts rpc st ctx data findCurrentNode method args
  refine ⟨hold.1, hold.2.1, ?_⟩
  intro nextNodes hne hrf hcalc
  obtain ⟨hstate, hatt⟩ := initCascadeSendMessage_sends rpc st ctx data findCurrentNode
    method args nextNodes hne hrf hcalc
  obtain ⟨hmap, hiff, herr⟩ := hold.2.2 nextNodes hne hrf hcalc
  rw [hatt] at hmap hiff herr
  exact ⟨hstate, hatt, hmap, hiff, herr⟩

/-- Witness for C25: three next nodes `a`, `b`, `c` on a network that records
the nodes the request was sent to and on which only the send to `b` fails; the
request reaches `a`, `b` and also `c`, and the error names `b` alone. -/
theorem initCascadeSendMessage_spec_witness :
    (rpcController.initCascadeSendMessage
        ({ network := { GetNodeID := "me", refString := fun r => r,
                        CalculateNextNodes := fun _ _ => Except.ok ["a", "b", "c"],
                        SendRequest := fun st node _ =>
                          (st ++ [node], if node = "b" then some "down" else none) },
           methodTable := fun _ => none } : rpcController (List String) String)
        [] { traceID := "t" } { NodeIds := ["x"], Entropy := [], ReplicationFactor := 2 }
        false "method" []).state = ["a", "b", "c"] ∧
    (rpcController.initCascadeSendMessage
        ({ network := { GetNodeID := "me", refString := fun r => r,
                        CalculateNextNodes := fun _ _ => Except.ok ["a", "b", "c"],
                        SendRequest := fun st node _ =>
                          (st ++ [node], if node = "b" then some "down" else none) },
           methodTable := fun _ => none } : rpcController (List String) String)
        [] { traceID := "t" } { NodeIds := ["x"], Entropy := [], ReplicationFactor := 2 }
        false "method" []).err =
      some "Failed to send cascade message to nodes: b" :=
  have h := (initCascadeSendMessage_spec
    ({ network := { GetNodeID := "me", refString := fun r => r,
                    CalculateNextNodes := fun _ _ => Except.ok ["a", "b", "c"],
                    SendRequest := fun st node _ =>
                      (st ++ [node], if node = "b" then some "down" else none) },
       methodTable := fun _ => none } : rpcController (List String) String)
    [] { traceID := "t" } { NodeIds := ["x"], Entropy := [], ReplicationFactor := 2 }
    false "method" []).2.2 ["a", "b", "c"] (by decide) (by decide) rfl
  ⟨h.1.trans (by decide),
    (h.2.2.2.2 ⟨("b", some "down"), by decide, by decide⟩).trans (by decide)⟩

/-! ## Request handlers -/

/-- Every error `initCascadeSendMessage` returns has a non-empty text. -/
theorem initCascadeSendMessage_err_ne_empty {σ Ref : Type} (rpc : rpcController σ Ref)
    (st : σ) (ctx : Context) (data : Cascade Ref) (findCurrentNode : Bool) (method : String)
    (args : List (List Byte)) (e : String)
    (h : (rpc.initCascadeSendMessage st ctx data findCurrentNode method args).err = some e) :
    e ≠ "" := by
  unfold rpcController.initCascadeSendMessage at h
  by_cases h1 : data.NodeIds.length = 0
  · rw [if_pos h1] at h
    simp only [Option.some.injEq] at h
    rw [← h]
    decide
  · rw [if_neg h1] at h
    by_cases h2 : data.ReplicationFactor = 0
    · rw [if_pos h2] at h
      simp only [Option.some.injEq] at h
      rw [← h]
      decide
    · rw [if_neg h2] at h
      generalize (if findCurrentNode = true then
          rpc.network.CalculateNextNodes data (some rpc.network.GetNodeID)
        else rpc.network.CalculateNextNodes data none) = computed at h
      cases computed with
      | error err =>
        simp only [Option.some.injEq] at h
        rw [← h]
        exact append_ne_empty_left _ _ (by decide)
      | ok nextNodes =>
        simp only at h
        by_cases h3 : nextNodes.length = 0
        · rw [if_pos h3] at h
          simp at h
        · rw [if_neg h3] at h
          by_cases h4 : (rpc.sendToNextNodes ctx data method args nextNodes
              { state := st, failedNodes := [], attempts := [] }).failedNodes.length > 0
          · rw [if_pos h4] at h
            simp only [Option.some.injEq] at h
            rw [← h]
            exact append_ne_empty_left _ _ (by decide)
          · rw [if_neg h4] at h
            simp at h

/-- C26: `processCascade` always returns a nil Go error and always forwards
the cascade to the next layer, whatever the local invoke returned; the
response has `Success = true` if and only if both the local invoke and the
forwarding succeeded, and otherwise `Success = false` with `Error` equal to the
invoke error text followed by `; ` (when the invoke failed) concatenated with
the forwarding error text (when the forwarding failed).  `processMessage`
always returns a nil Go error, with `Success` equal to whether the invoke
succeeded. -/
theorem processCascade_spec {σ Ref : Type} (rpc : rpcController σ Ref) (st : σ)
    (ctx : Context) (payload : RequestCascade Ref) (rpcPayload : RequestRPC) :
    (rpc.processCascade st ctx payload).goError = none ∧
    (rpc.processCascade st ctx payload).forwarding =
      rpc.initCascadeSendMessage st { traceID := payload.TraceID } payload.Cascade true
        payload.RPC.Method payload.RPC.Data ∧
    ((rpc.processCascade st ctx payload).response.Success = true ↔
      (rpc.invoke { traceID := payload.TraceID } payload.RPC.Method payload.RPC.Data).2 = none ∧
      (rpc.initCascadeSendMessage st { traceID := payload.TraceID } payload.Cascade true
        payload.RPC.Method payload.RPC.Data).err = none) ∧
    ((rpc.processCascade st ctx payload).response.Success = false →
      (rpc.processCascade st ctx payload).response.Error =
        (match (rpc.invoke { traceID := payload.TraceID } payload.RPC.Method
            payload.RPC.Data).2 with
          | some invokeErr => invokeErr ++ "; "
          | none => "") ++
        (match (rpc.initCascadeSendMessage st { traceID := payload.TraceID } payload.Cascade
            true payload.RPC.Method payload.RPC.Data).err with
          | some sendErr => sendErr
          | none => "")) ∧
    (rpc.processMessage ctx rpcPayload).2 = none ∧
    ((rpc.processMessage ctx rpcPayload).1.Success = true ↔
      (rpc.invoke ctx rpcPayload.Method rpcPayload.Data).2 = none) := by
  have hne := initCascadeSendMessage_err_ne_empty rpc st { traceID := payload.TraceID }
    payload.Cascade true payload.RPC.Method payload.RPC.Data
  have hmsg : (rpc.processMessage ctx rpcPayload).2 = none ∧
      ((rpc.processMessage ctx rpcPayload).1.Success = true ↔
        (rpc.invoke ctx rpcPayload.Method rpcPayload.Data).2 = none) := by
    unfold rpcController.processMessage
    rcases hinv : rpc.invoke ctx rpcPayload.Method rpcPayload.Data with ⟨res, _ | err⟩ <;> simp
  unfold rpcController.processCascade
  rcases hinv : (rpc.invoke { traceID := payload.TraceID } payload.RPC.Method
      payload.RPC.Data).2 with _ | invokeErr
  · rcases hsend : (rpc.initCascadeSendMessage st { traceID := payload.TraceID }
        payload.Cascade true payload.RPC.Method payload.RPC.Data).err with _ | sendErr
    · simp [hinv, hsend, hmsg]
    · have h1 : sendErr ≠ "" := hne sendErr hsend
      have h2 : "" ++ sendErr ≠ "" := append_ne_empty_right _ _ h1
      simp [hinv, hsend, hmsg, h1, h2]
  · have h0 : invokeErr ++ "; " ≠ "" := append_ne_empty_right _ _ (by decide)
    rcases hsend : (rpc.initCascadeSendMessage st { traceID := payload.TraceID }
        payload.Cascade true payload.RPC.Method payload.RPC.Data).err with _ | sendErr
    · simp [hinv, hsend, hmsg, h0]
    · have h2 : invokeErr ++ "; " ++ sendErr ≠ "" := append_ne_empty_left _ _ h0
      have h3 : invokeErr ++ ("; " ++ sendErr) ≠ "" := by
        rw [← String.append_assoc]
        exact h2
      simp [hinv, hsend, hmsg, h0, h2, h3]

/-- Witness for C26: the invoked method is not registered and the cascade has
no node identifiers, so both the invoke and the forwarding fail; the response
carries both error texts. -/
theorem processCascade_spec_witness :
    (rpcController.processCascade
        ({ network := { GetNodeID := "me", refString := fun r => r,
                        CalculateNextNodes := fun _ _ => Except.ok [],
                        SendRequest := fun st _ _ => (st, none) },
           methodTable := fun _ => none } : rpcController Unit String)
        () { traceID := "" }
        { TraceID := "t", RPC := { Method := "m", Data := [] },
          Cascade := { NodeIds := [], Entropy := [], ReplicationFactor := 1 } }).response.Error =
      "RPC with name m is not registered; node IDs list should not be empty" :=
  ((processCascade_spec
    ({ network := { GetNodeID := "me", refString := fun r => r,
                    CalculateNextNodes := fun _ _ => Except.ok [],
                    SendRequest := fun st _ _ => (st, none) },
       methodTable := fun _ => none } : rpcController Unit String)
    () { traceID := "" }
    { TraceID := "t", RPC := { Method := "m", Data := [] },
      Cascade := { NodeIds := [], Entropy := [], ReplicationFactor := 1 } }
    { Method := "m", Data := [] }).2.2.2.1 rfl).trans (by decide)

end controller

namespace api

/-! ## Query dispatch -/

/-- C27: for a query-type string that maps to none of the five known types
`ProcessQueryType` returns `WriteError` of the wrong-parameter message with
code -2 and calls no handler; for a known type it calls the handler of that
type, and returns `WriteError("Handler error: " + e, -3)` when the handler
returns the error `e` and the answer of the handler unchanged otherwise.
Every `WriteError(m, c)` is the map with the single key `error` holding
`message = m` and `code = c`. -/
theorem ProcessQueryType_spec (QTypeFromString : String → QType) (rh : RequestHandler)
    (qTypeStr : String) (m : String) (c : Int) :
    (∀ n, QTypeFromString qTypeStr = QType.unknown n →
      (ProcessQueryType QTypeFromString rh qTypeStr).answer =
        WriteError
          ("Wrong query parameter \x27query_type\x27 = \x27" ++ qTypeStr ++ "\x27") (-2) ∧
      (ProcessQueryType QTypeFromString rh qTypeStr).calls = []) ∧
    (∀ call handled,
      (QTypeFromString qTypeStr = QType.CreateMember ∧
          call = HandlerCall.ProcessCreateMember ∧ handled = rh.ProcessCreateMember) ∨
        (QTypeFromString qTypeStr = QType.DumpUserInfo ∧
          call = HandlerCall.ProcessDumpUsers false ∧ handled = rh.ProcessDumpUsers false) ∨
        (QTypeFromString qTypeStr = QType.DumpAllUsers ∧
          call = HandlerCall.ProcessDumpUsers true ∧ handled = rh.ProcessDumpUsers true) ∨
        (QTypeFromString qTypeStr = QType.GetBalance ∧
          call = HandlerCall.ProcessGetBalance ∧ handled = rh.ProcessGetBalance) ∨
        (QTypeFromString qTypeStr = QType.SendMoney ∧
          call = HandlerCall.ProcessSendMoney ∧ handled = rh.ProcessSendMoney) →
      (ProcessQueryType QTypeFromString rh qTypeStr).calls = [call] ∧
      (∀ e, handled.2 = some e →
        (ProcessQueryType QTypeFromString rh qTypeStr).answer =
          WriteError ("Handler error: " ++ e) (-3)) ∧
      (handled.2 = none →
        (ProcessQueryType QTypeFromString rh qTypeStr).answer = handled.1)) ∧
    WriteError m c =
      [("error", JSON.obj [("message", JSON.str m), ("code", JSON.int c)])] := by
  have hfinish : ∀ (handled : Answer × Option String) (call : HandlerCall),
      (finishQuery handled call).calls = [call] ∧
      (∀ e, handled.2 = some e →
        (finishQuery handled call).answer = WriteError ("Handler error: " ++ e) (-3)) ∧
      (handled.2 = none → (finishQuery handled call).answer = handled.1) := by
    intro handled call
    unfold finishQuery
    cases h : handled.2 <;> simp
  refine ⟨?_, ?_, rfl⟩
  · intro n hn
    simp [ProcessQueryType, hn]
  · intro call handled hcase
    rcases hcase with ⟨hq, rfl, rfl⟩ | ⟨hq, rfl, rfl⟩ | ⟨hq, rfl, rfl⟩ | ⟨hq, rfl, rfl⟩ |
      ⟨hq, rfl, rfl⟩ <;>
    · simp only [ProcessQueryType, hq]
      exact hfinish _ _

/-- Witness for C27: the query type `nope` maps to no known type; the answer
is the error object of code -2 and no handler is called. -/
theorem ProcessQueryType_spec_witness :
    (ProcessQueryType (fun _ => QType.unknown 0)
        { qid := "q", ProcessCreateMember := ([], none), ProcessDumpUsers := fun _ => ([], none),
          ProcessGetBalance := ([], none), ProcessSendMoney := ([], none) } "nope").answer =
      [("error", JSON.obj [("message",
          JSON.str "Wrong query parameter \x27query_type\x27 = \x27nope\x27"),
        ("code", JSON.int (-2))])] :=
  ((ProcessQueryType_spec (fun _ => QType.unknown 0)
    { qid := "q", ProcessCreateMember := ([], none), ProcessDumpUsers := fun _ => ([], none),
      ProcessGetBalance := ([], none), ProcessSendMoney := ([], none) } "nope" "" 0).1 0
    rfl).1.trans rfl

/-! ## Construction of the runner -/

/-- A text has no character exactly when it is the empty text. -/
theorem length_eq_zero_iff (s : String) : s.length = 0 ↔ s = "" := by
  constructor
  · intro h
    exact String.ext (List.length_eq_zero.mp h)
  · intro h
    rw [h]
    rfl

/-- C28: `NewApiRunner` returns an error, and no runner, if and only if the
configuration is nil, its port is 0, or its location is empty, checked in that
order with the three messages; otherwise it returns a runner that keeps the
configuration and whose server address is `:` followed by the decimal port. -/
theorem NewApiRunner_spec (cfg : Option ApiRunnerConfig) (c : ApiRunnerConfig) :
    NewApiRunner none = Except.error "[ NewApiRunner ] config is nil" ∧
    (c.Port = 0 → NewApiRunner (some c) = Except.error "[ NewApiRunner ] Port must not be 0") ∧
    (c.Port ≠ 0 → c.Location = "" →
      NewApiRunner (some c) = Except.error "[ NewApiRunner ] Location must exist") ∧
    (c.Port ≠ 0 → c.Location ≠ "" →
      NewApiRunner (some c) =
        Except.ok { server := { Addr := ":" ++ toString c.Port }, cfg := c }) ∧
    ((∃ msg, NewApiRunner cfg = Except.error msg) ↔
      cfg = none ∨ ∃ c0, cfg = some c0 ∧ (c0.Port = 0 ∨ c0.Location = "")) := by
  have hport : ∀ c0 : ApiRunnerConfig, c0.Port = 0 →
      NewApiRunner (some c0) = Except.error "[ NewApiRunner ] Port must not be 0" := by
    intro c0 h
    simp [NewApiRunner, h]
  have hloc : ∀ c0 : ApiRunnerConfig, c0.Port ≠ 0 → c0.Location = "" →
      NewApiRunner (some c0) = Except.error "[ NewApiRunner ] Location must exist" := by
    intro c0 h1 h2
    simp [NewApiRunner, h1, h2]
  have hok : ∀ c0 : ApiRunnerConfig, c0.Port ≠ 0 → c0.Location ≠ "" →
      NewApiRunner (some c0) =
        Except.ok { server := { Addr := ":" ++ toString c0.Port }, cfg := c0 } := by
    intro c0 h1 h2
    have h3 : ¬ c0.Location.length = 0 := fun h => h2 ((length_eq_zero_iff _).mp h)
    simp [NewApiRunner, h1, h3]
  refine ⟨rfl, hport c, hloc c, hok c, ?_⟩
  constructor
  · rintro ⟨msg, hmsg⟩
    cases cfg with
    | none => exact Or.inl rfl
    | some c0 =>
      refine Or.inr ⟨c0, rfl, ?_⟩
      by_cases h1 : c0.Port = 0
      · exact Or.inl h1
      · by_cases h2 : c0.Location = ""
        · exact Or.inr h2
        · rw [hok c0 h1 h2] at hmsg
          cases hmsg
  · rintro (h | ⟨c0, h, h1 | h2⟩)
    · exact ⟨_, by rw [h]; rfl⟩
    · exact ⟨_, by rw [h]; exact hport c0 h1⟩
    · by_cases h1 : c0.Port = 0
      · exact ⟨_, by rw [h]; exact hport c0 h1⟩
      · exact ⟨_, by rw [h]; exact hloc c0 h1 h2⟩

/-- Witness for C28: port 8080 and location `/api/v1`; the runner listens on
`:8080`. -/
theorem NewApiRunner_spec_witness :
    NewApiRunner (some { Port := 8080, Location := "/api/v1" }) =
      Except.ok { server := { Addr := ":8080" },
                  cfg := { Port := 8080, Location := "/api/v1" } } :=
  ((NewApiRunner_spec none { Port := 8080, Location := "/api/v1" }).2.2.2.1 (by decide)
    (by decide)).trans rfl

end api

namespace genesis

/-! ## Activation of the discovery nodes -/

/-- What holds after the loop of `activateDiscoveryNodes`, started at
iteration `i` with the entries and calls of the earlier iterations: it never
panics; a returned list has one entry per discovery node, each as `entryAt`
says; a failed activation is the error returned; and if no activation failed a
list is returned. -/
theorem activateLoop_spec {σ ID Ref PrivateKey : Type} (g : Generator σ ID Ref)
    (nodeRecordProto : Ref) (nodesInfo : List (nodeInfo PrivateKey))
    (hlen : nodesInfo.length = g.DiscoveryNodes.length) (rest : List DiscoveryNode) (i : Nat)
    (acc : ActivateLoop σ PrivateKey Ref) (hrest : g.DiscoveryNodes.drop i = rest)
    (hi : i ≤ g.DiscoveryNodes.length) (hnodes : acc.nodes.length = i)
    (hcalls : acc.calls.length = i)
    (hacc : ∀ k, k < i → g.entryAt nodesInfo acc.calls acc.nodes k) :
    (∀ msg, (g.activateLoop nodeRecordProto nodesInfo rest i acc).result ≠ Outcome.panic msg) ∧
    (∀ nodes, (g.activateLoop nodeRecordProto nodesInfo rest i acc).result = Outcome.ok nodes →
      nodes.length = g.DiscoveryNodes.length ∧
      (g.activateLoop nodeRecordProto nodesInfo rest i acc).calls.length =
        g.DiscoveryNodes.length ∧
      ∀ k, k < g.DiscoveryNodes.length →
        g.entryAt nodesInfo (g.activateLoop nodeRecordProto nodesInfo rest i acc).calls
          nodes k) ∧
    (∀ (k : Nat) (name err : String),
      (g.activateLoop nodeRecordProto nodesInfo rest i acc).calls[k]? =
        some (name, Except.error err) →
      (g.activateLoop nodeRecordProto nodesInfo rest i acc).result =
        Outcome.error
          ("[ activateDiscoveryNodes ] Couldn\x27t activateNodeRecord node instance: " ++ err)) ∧
    ((∀ t ∈ (g.activateLoop nodeRecordProto nodesInfo rest i acc).calls,
        ∃ contract, t.2 = Except.ok contract) →
      ∃ nodes, (g.activateLoop nodeRecordProto nodesInfo rest i acc).result =
        Outcome.ok nodes) := by
  have hprevOf : ∀ (j : Nat) (a : ActivateLoop σ PrivateKey Ref),
      (∀ k, k < j → g.entryAt nodesInfo a.calls a.nodes k) →
      ∀ (k : Nat) (name err : String), k < j → a.calls[k]? ≠ some (name, Except.error err) := by
    intro j a ha k name err hk h
    obtain ⟨_, _, contract, _, _, hc, _⟩ := ha k hk
    rw [hc] at h
    simp at h
  induction rest generalizing i acc with
  | nil =>
    have hprev := hprevOf i acc hacc
    have hge : g.DiscoveryNodes.length ≤ i := List.drop_eq_nil_iff.mp hrest
    have hieq : i = g.DiscoveryNodes.length := Nat.le_antisymm hi hge
    simp only [Generator.activateLoop]
    refine ⟨?_, ?_, ?_, ?_⟩
    · intro msg h
      cases h
    · intro nodes h
      cases h
      refine ⟨by omega, by omega, ?_⟩
      intro k hk
      exact hacc k (by omega)
    · intro k name err h
      have hk : k < acc.calls.length := by
        by_contra hnot
        rw [List.getElem?_eq_none (by omega)] at h
        cases h
      exact absurd h (hprev k name err (by omega))
    · intro _
      exact ⟨acc.nodes, rfl⟩
  | cons discoverNode rest ih =>
    have hlt : i < g.DiscoveryNodes.length := by
      by_contra hnot
      rw [List.drop_eq_nil_iff.mpr (by omega)] at hrest
      cases hrest
    rw [List.drop_eq_getElem_cons hlt] at hrest
    have hdn : g.DiscoveryNodes[i] = discoverNode := (List.cons.inj hrest).1
    have hrest2 : g.DiscoveryNodes.drop (i + 1) = rest := (List.cons.inj hrest).2
    have hinfo : nodesInfo[i]? = some (nodesInfo[i]) :=
      List.getElem?_eq_getElem (by omega)
    have hdn2 : g.DiscoveryNodes[i]? = some discoverNode := by
      rw [List.getElem?_eq_getElem hlt, hdn]
    have hprev := hprevOf i acc hacc
    unfold Generator.activateLoop
    simp only [hinfo]
    rcases hact : g.activateNodeRecord acc.state
        { PublicKey := (nodesInfo[i]).publicKey,
          Role := g.GetStaticRoleFromString discoverNode.Role }
        ("discoverynoderecord_" ++ toString i) nodeRecordProto with ⟨st, err | contract⟩
    · simp only
      refine ⟨?_, ?_, ?_, ?_⟩
      · intro msg h
        cases h
      · intro nodes h
        cases h
      · intro k name err2 h
        by_cases hk : k < i
        · rw [List.getElem?_append_left (by omega)] at h
          exact absurd h (hprev k name err2 hk)
        · rw [List.getElem?_append_right (by omega)] at h
          have hk0 : k - acc.calls.length = 0 := by
            by_contra hne
            rw [List.getElem?_eq_none (by simp; omega)] at h
            cases h
          rw [hk0] at h
          simp only [List.getElem?_cons_zero, Option.some.injEq, Prod.mk.injEq,
            Except.error.injEq] at h
          rw [h.2]
      · intro hall
        obtain ⟨contract, hc⟩ := hall ("discoverynoderecord_" ++ toString i, Except.error err)
          (by simp)
        cases hc
    · simp only
      apply ih (i + 1)
      · exact hrest2
      · omega
      · simp [hnodes]
      · simp [hcalls]
      · intro k hk
        by_cases hki : k < i
        · obtain ⟨info, dn, c, h1, h2, h3, h4⟩ := hacc k hki
          refine ⟨info, dn, c, h1, h2, ?_, ?_⟩
          · rw [List.getElem?_append_left (by omega)]
            exact h3
          · rw [List.getElem?_append_left (by omega)]
            exact h4
        · have hkeq : k = i := by omega
          subst hkeq
          refine ⟨nodesInfo[k], discoverNode, contract, hinfo, hdn2, ?_, ?_⟩
          · rw [List.getElem?_append_right (by omega)]
            simp [hcalls]
          · rw [List.getElem?_append_right (by omega)]
            simp [hnodes]

/-- The outcome of `activateDiscoveryNodes`, read off the calls its loop
recorded: no panic, one entry per discovery node in a returned list, the
wrapped error of a failed call, and a list when no call failed. -/
theorem activateDiscoveryNodes_calls {σ ID Ref PrivateKey : Type} (g : Generator σ ID Ref)
    (st : σ) (nodeRecordProto : Ref) (nodesInfo : List (nodeInfo PrivateKey)) :
    (nodesInfo.length ≠ g.DiscoveryNodes.length →
      g.activateDiscoveryNodes st nodeRecordProto nodesInfo =
        { state := st, calls := [],
          result := Outcome.error ("[ activateDiscoveryNodes ] len of nodesInfo param must be " ++
            "equal to len of DiscoveryNodes in genesis config") }) ∧
    (nodesInfo.length = g.DiscoveryNodes.length →
      (∀ msg, (g.activateDiscoveryNodes st nodeRecordProto nodesInfo).result ≠
        Outcome.panic msg) ∧
      (∀ nodes, (g.activateDiscoveryNodes st nodeRecordProto nodesInfo).result =
          Outcome.ok nodes →
        nodes.length = g.DiscoveryNodes.length ∧
        (g.activateDiscoveryNodes st nodeRecordProto nodesInfo).calls.length =
          g.DiscoveryNodes.length ∧
        ∀ k, k < g.DiscoveryNodes.length →
          g.entryAt nodesInfo (g.activateDiscoveryNodes st nodeRecordProto nodesInfo).calls
            nodes k) ∧
      (∀ (k : Nat) (name err : String),
        (g.activateDiscoveryNodes st nodeRecordProto nodesInfo).calls[k]? =
          some (name, Except.error err) →
        (g.activateDiscoveryNodes st nodeRecordProto nodesInfo).result =
          Outcome.error
            ("[ activateDiscoveryNodes ] Couldn\x27t activateNodeRecord node instance: " ++
              err)) ∧
      ((∀ t ∈ (g.activateDiscoveryNodes st nodeRecordProto nodesInfo).calls,
          ∃ contract, t.2 = Except.ok contract) →
        ∃ nodes, (g.activateDiscoveryNodes st nodeRecordProto nodesInfo).result =
          Outcome.ok nodes)) := by
  constructor
  · intro h
    simp [Generator.activateDiscoveryNodes, h]
  · intro h
    have hloop := activateLoop_spec g nodeRecordProto nodesInfo h g.DiscoveryNodes 0
      { state := st, nodes := [], calls := [] } (by simp) (Nat.zero_le _) rfl rfl
      (fun k hk => absurd hk (Nat.not_lt_zero k))
    have hdef : g.activateDiscoveryNodes st nodeRecordProto nodesInfo =
        g.activateLoop nodeRecordProto nodesInfo g.DiscoveryNodes 0
          { state := st, nodes := [], calls := [] } := by
      simp [Generator.activateDiscoveryNodes, h]
    rw [hdef]
    exact hloop

/-- The loop makes exactly the `activateNodeRecord` calls of `activations`:
it leaves the artifact manager in the state they leave and records what each
returned. -/
theorem activateLoop_activations {σ ID Ref PrivateKey : Type} (g : Generator σ ID Ref)
    (nodeRecordProto : Ref) (nodesInfo : List (nodeInfo PrivateKey))
    (rest : List DiscoveryNode) (i : Nat) (acc : ActivateLoop σ PrivateKey Ref)
    (hlen : i + rest.length ≤ nodesInfo.length) :
    (g.activateLoop nodeRecordProto nodesInfo rest i acc).state =
      (g.activations nodeRecordProto ((nodesInfo.drop i).zip rest) i acc.state).1 ∧
    (g.activateLoop nodeRecordProto nodesInfo rest i acc).calls =
      acc.calls ++
        (g.activations nodeRecordProto ((nodesInfo.drop i).zip rest) i acc.state).2 := by
  induction rest generalizing i acc with
  | nil => simp [Generator.activateLoop, Generator.activations]
  | cons discoverNode rest ih =>
    have hlt : i < nodesInfo.length := by
      simp only [List.length_cons] at hlen
      omega
    have hinfo : nodesInfo[i]? = some (nodesInfo[i]) := List.getElem?_eq_getElem hlt
    rw [List.drop_eq_getElem_cons hlt, List.zip_cons_cons]
    unfold Generator.activateLoop Generator.activations
    simp only [hinfo]
    rcases hact : g.activateNodeRecord acc.state
        { PublicKey := (nodesInfo[i]).publicKey,
          Role := g.GetStaticRoleFromString discoverNode.Role }
        ("discoverynoderecord_" ++ toString i) nodeRecordProto with ⟨st, err | contract⟩
    · simp
    · simp only
      have h := ih (i + 1)
        ⟨st, acc.nodes ++
            [{ node := { PublicKey := (nodesInfo[i]).publicKey, Host := discoverNode.Host,
                         NodeRef := g.refString contract },
               privKey := (nodesInfo[i]).privateKey, ref := contract,
               role := discoverNode.Role }],
          acc.calls ++ [("discoverynoderecord_" ++ toString i, Except.ok contract)]⟩
        (by simp only [List.length_cons] at hlen; omega)
      simpa using h

/-- C29: `activateDiscoveryNodes` returns an error without calling
`activateNodeRecord`, the artifact manager being left as it was, when
`len(nodesInfo)` differs from `len(config.DiscoveryNodes)`.  Otherwise it
makes the `activateNodeRecord` calls of `activations`, one per discovery node
in order until one fails, and leaves the artifact manager in the state they
leave; no index is out of range; a returned list has exactly
`len(config.DiscoveryNodes)` entries, entry `i` pairing the keys of
`nodesInfo[i]` with the host and role of `config.DiscoveryNodes[i]` and the
reference that `activateNodeRecord` returned for the record named
`discoverynoderecord_<i>`; a list is returned if every activation succeeds,
and if an activation fails its wrapped error is returned and no node list. -/
theorem activateDiscoveryNodes_spec {σ ID Ref PrivateKey : Type} (g : Generator σ ID Ref)
    (st : σ) (nodeRecordProto : Ref) (nodesInfo : List (nodeInfo PrivateKey)) :
    (nodesInfo.length ≠ g.DiscoveryNodes.length →
      g.activateDiscoveryNodes st nodeRecordProto nodesInfo =
        { state := st, calls := [],
          result := Outcome.error ("[ activateDiscoveryNodes ] len of nodesInfo param must be " ++
            "equal to len of DiscoveryNodes in genesis config") }) ∧
    (nodesInfo.length = g.DiscoveryNodes.length →
      (g.activateDiscoveryNodes st nodeRecordProto nodesInfo).state =
        (g.activations nodeRecordProto (nodesInfo.zip g.DiscoveryNodes) 0 st).1 ∧
      (g.activateDiscoveryNodes st nodeRecordProto nodesInfo).calls =
        (g.activations nodeRecordProto (nodesInfo.zip g.DiscoveryNodes) 0 st).2 ∧
      (∀ msg, (g.activateDiscoveryNodes st nodeRecordProto nodesInfo).result ≠
        Outcome.panic msg) ∧
      (∀ nodes, (g.activateDiscoveryNodes st nodeRecordProto nodesInfo).result =
          Outcome.ok nodes →
        nodes.length = g.DiscoveryNodes.length ∧
        (g.activations nodeRecordProto (nodesInfo.zip g.DiscoveryNodes) 0 st).2.length =
          g.DiscoveryNodes.length ∧
        ∀ k, k < g.DiscoveryNodes.length →
          g.entryAt nodesInfo
            (g.activations nodeRecordProto (nodesInfo.zip g.DiscoveryNodes) 0 st).2 nodes k) ∧
      (∀ (k : Nat) (name err : String),
        (g.activations nodeRecordProto (nodesInfo.zip g.DiscoveryNodes) 0 st).2[k]? =
          some (name, Except.error err) →
        (g.activateDiscoveryNodes st nodeRecordProto nodesInfo).result =
          Outcome.error
            ("[ activateDiscoveryNodes ] Couldn\x27t activateNodeRecord node instance: " ++
              err)) ∧
      ((∀ t ∈ (g.activations nodeRecordProto (nodesInfo.zip g.DiscoveryNodes) 0 st).2,
          ∃ contract, t.2 = Except.ok contract) →
        ∃ nodes, (g.activateDiscoveryNodes st nodeRecordProto nodesInfo).result =
          Outcome.ok nodes)) := by
  have hold := activateDiscoveryNodes_calls g st nodeRecordProto nodesInfo
  refine ⟨hold.1, ?_⟩
  intro h
  have hloop := activateLoop_activations g nodeRecordProto nodesInfo g.DiscoveryNodes 0
    { state := st, nodes := [], calls := [] } (by omega)
  simp only [List.drop_zero, List.nil_append] at hloop
  have hdef : g.activateDiscoveryNodes st nodeRecordProto nodesInfo =
      g.activateLoop nodeRecordProto nodesInfo g.DiscoveryNodes 0
        { state := st, nodes := [], calls := [] } := by
    simp [Generator.activateDiscoveryNodes, h]
  have hstate : (g.activateDiscoveryNodes st nodeRecordProto nodesInfo).state =
      (g.activations nodeRecordProto (nodesInfo.zip g.DiscoveryNodes) 0 st).1 := by
    rw [hdef]
    exact hloop.1
  have hcalls : (g.activateDiscoveryNodes st nodeRecordProto nodesInfo).calls =
      (g.activations nodeRecordProto (nodesInfo.zip g.DiscoveryNodes) 0 st).2 := by
    rw [hdef]
    exact hloop.2
  obtain ⟨hpanic, hok, herr, hall⟩ := hold.2 h
  rw [hcalls] at hok herr hall
  exact ⟨hstate, hcalls, hpanic, hok, herr, hall⟩

/-- Witness for C29: two discovery nodes with their two `nodeInfo` entries, on
an artifact manager that records the objects it was asked to activate and on
which every call succeeds: `activateNodeRecord` ran for `discoverynoderecord_0`
and then for `discoverynoderecord_1`, both objects were activated, and each
call returned its reference. -/
theorem activateDiscoveryNodes_spec_witness :
    (Generator.activateDiscoveryNodes
        ({ DiscoveryNodes := [{ Host := "h0", Role := "r0" }, { Host := "h1", Role := "r1" }],
           rootDomainRef := "root", nodeDomainRef := "nodes", emptyRef := "",
           RegisterRequest := fun st _ name => (st, Except.ok name),
           ActivateObject := fun st _ contract _ _ _ _ => (st ++ [contract], none),
           RegisterResult := fun st _ _ => (st, none),
           Serialize := fun _ => Except.ok [],
           NewReference := fun domain id => domain ++ "/" ++ id,
           refString := fun r => r,
           GetStaticRoleFromString := fun r => r.length } :
          Generator (List String) String String)
        [] "proto"
        [({ privateKey := 7, publicKey := "pub0" } : nodeInfo Nat),
          { privateKey := 8, publicKey := "pub1" }]).state =
      ["root/discoverynoderecord_0", "root/discoverynoderecord_1"] ∧
    (Generator.activateDiscoveryNodes
        ({ DiscoveryNodes := [{ Host := "h0", Role := "r0" }, { Host := "h1", Role := "r1" }],
           rootDomainRef := "root", nodeDomainRef := "nodes", emptyRef := "",
           RegisterRequest := fun st _ name => (st, Except.ok name),
           ActivateObject := fun st _ contract _ _ _ _ => (st ++ [contract], none),
           RegisterResult := fun st _ _ => (st, none),
           Serialize := fun _ => Except.ok [],
           NewReference := fun domain id => domain ++ "/" ++ id,
           refString := fun r => r,
           GetStaticRoleFromString := fun r => r.length } :
          Generator (List String) String String)
        [] "proto"
        [({ privateKey := 7, publicKey := "pub0" } : nodeInfo Nat),
          { privateKey := 8, publicKey := "pub1" }]).calls =
      [("discoverynoderecord_0", Except.ok "root/discoverynoderecord_0"),
        ("discoverynoderecord_1", Except.ok "root/discoverynoderecord_1")] :=
  have h := (activateDiscoveryNodes_spec
    ({ DiscoveryNodes := [{ Host := "h0", Role := "r0" }, { Host := "h1", Role := "r1" }],
       rootDomainRef := "root", nodeDomainRef := "nodes", emptyRef := "",
       RegisterRequest := fun st _ name => (st, Except.ok name),
       ActivateObject := fun st _ contract _ _ _ _ => (st ++ [contract], none),
       RegisterResult := fun st _ _ => (st, none),
       Serialize := fun _ => Except.ok [],
       NewReference := fun domain id => domain ++ "/" ++ id,
       refString := fun r => r,
       GetStaticRoleFromString := fun r => r.length } :
      Generator (List String) String String)
    [] "proto"
    [({ privateKey := 7, publicKey := "pub0" } : nodeInfo Nat),
      { privateKey := 8, publicKey := "pub1" }]).2 (by decide)
  ⟨h.1.trans (by decide), h.2.1.trans rfl⟩

end genesis

